import Mathlib

/-!
Verification development for the FinBot conversational application
(`main.py`): a dialog-stage state machine driven by an immediate-mode UI
host, together with a streaming chat-completion client.

The embedding is shallow and executable.  Each script run of the host
re-executes `main` from the top; a `rerun` instruction aborts the current
run and starts a fresh one.  One user event therefore corresponds to a
bounded sequence of script runs, which the step functions below unroll.
Session fields keep their source names.  String literals reproduce the
exact code points stored in the source file (the file holds mojibake
sequences such as U+00E2 U+20AC U+2122 where a typographic quote was
intended; we model the bytes the program actually compares).

Python-specific behaviours are modelled explicitly:
* `truthy` is Python truthiness on an optional string (absent and empty
  are both falsy);
* `pyStartsWith` is `str.startswith`, `pyLower` is `str.lower` (ASCII
  case mapping, which is all the program relies on);
* an f-string interpolation of `None` prints the text "None" (`optStr`).

Network behaviour of the chat endpoint is an oracle (`NetworkOutcome`):
either a list of stream lines (each blank, malformed, or a decoded chunk
with an optional `message.content` fragment), or one of the three failure
classes the code catches.
-/

/-- Python truthiness of an optional string: `None` and `""` are falsy. -/
def truthy : Option String → Bool
  | none => false
  | some s => !(s = "")

/-- Model of Python `str.startswith`. -/
def pyStartsWith (s pre : String) : Bool :=
  pre.data.isPrefixOf s.data

/-- Model of Python `str.lower` (ASCII case mapping). -/
def pyLower (s : String) : String :=
  String.mk (s.data.map Char.toLower)

/-- Interpolating an optional value into a Python f-string: `None` prints "None". -/
def optStr : Option String → String
  | none => "None"
  | some s => s

/-- A chat message: `{"role": ..., "content": ...}`. -/
structure Message where
  role : String
  content : String
deriving DecidableEq, Repr

/-- Content of the last element of a message log (`messages[-1]["content"]`). -/
def lastContent (msgs : List Message) : Option String :=
  msgs.getLast?.map Message.content

-- Flow-stage constants (lines 21-29 of main.py).

def FLOW_WELCOME : String := "welcome"

def FLOW_NEW_BUSINESS_START : String := "new_business_start"

def FLOW_NEW_BUSINESS_IDEA : String := "new_business_idea"

def FLOW_NEW_BUSINESS_NO_IDEA : String := "new_business_no_idea"

def FLOW_EXISTING_BUSINESS_NEEDS : String := "existing_business_needs"

def FLOW_LEARN_MORE_TOPICS : String := "learn_more_topics"

def FLOW_FREE_TEXT : String := "free_text"

def FLOW_HUMAN_SUPPORT : String := "human_support"

def FLOW_FILE_ANALYSIS : String := "file_analysis"

-- String literals of main.py, with the exact code points stored in the file.

def DEFAULT_SYSTEM_PROMPT : String :=
  "You are FinBot, a helpful and friendly AI assistant for small business finance. Keep your responses concise and relevant to the provided information or the current conversation flow."

/-- Modelled from the spec: the analysis-trigger prompt is loaded at startup
from an external text resource (`prompt.txt`, not part of the sources); the
spec fixes only that it is a single fixed prompt used for every automatic
document-analysis call, so its exact text is representative. -/
def FILE_ANALYSIS_TRIGGER_PROMPT : String :=
  "Please review the uploaded document and summarize its key financial points."

def MSG_WELCOME : String :=
  "Hi ðŸ‘‹ Iâ€™m FinBot, your small business finance buddy. I can help you track cash flow, check funding options, or give you smart budget tips. Letâ€™s get started â€” what do you want help with today?"

def LBL_START : String := "Iâ€™m just starting my business"

def LBL_RUN : String := "I already run a business"

def LBL_FUNDING : String := "I want funding help"

def LBL_TRACK : String := "I want to track my cash flow"

def LBL_LEARN : String := "I want to learn more"

def LBL_QUESTION : String := "I have a question"

def LBL_IDEA : String := "Yes, I have an idea"

def LBL_NOIDEA : String := "No, I need help choosing"

def MSG_NBS : String :=
  "Great! Letâ€™s build a strong base together. Do you have a business idea yet?"

def MSG_IDEA : String :=
  "Awesome! Do you know roughly how much money youâ€™ll need to start?"

def MSG_IDEA_NOTE : String := "*(Placeholder: Offer simple planning template)*"

def MSG_NOIDEA : String :=
  "No worries! I can show you some small business ideas that need low investment. Want to see them?"

def MSG_NOIDEA_NOTE : String := "*(Placeholder: Link to blog/articles for ideas)*"

def MSG_EXISTING : String :=
  "Good to know! Whatâ€™s your biggest need right now?"

def MSG_LEARN : String :=
  "Perfect! I can share guides, checklists, or tips for you. What do you want to learn about?"

def MSG_HANDOFF : String := "Connecting you to a human expert. Please wait a moment."

def MSG_EXPERT : String :=
  "Our human expert will be with you shortly. Please provide your contact details."

def APOLOGY_CONNECTION : String :=
  "I\x27m sorry, I can\x27t connect to the local LLM. Please check if Ollama is running."

def APOLOGY_HTTP : String :=
  "I\x27m sorry, I encountered an error with the Ollama API. Please check the server logs."

def APOLOGY_OTHER : String :=
  "An unexpected error occurred. Please check your Ollama setup."

def CONFIG_ERR_BASE : String :=
  "OLLAMA_API_BASE environment variable is not set. Please create a .env file or set the variable."

def CONFIG_ERR_MODEL : String :=
  "OLLAMA_MODEL environment variable is not set. Please create a .env file or set the variable."

/-- Prefix of the upload-confirmation status line (line 91 of main.py). -/
def PREFIX_FILE : String := "File \x27"

/-- The thinking-placeholder status line (lines 91 and 273 of main.py). -/
def PREFIX_THINKING : String := "Thinking about the file content..."

/-- Upload confirmation appended on storing a new file (line 264 of main.py). -/
def uploadConfirmMsg (nm : String) : String :=
  "File \x27" ++ nm ++ "\x27 uploaded successfully. Analyzing content..."

/-- The synthetic user message wrapping document content (line 85 of main.py). -/
def fileWrapper (session_file_name : Option String) (content : String) : String :=
  "The following is content from a file named \x27" ++ optStr session_file_name ++
    "\x27:\n\n\x60\x60\x60\n" ++ content ++
    "\n\x60\x60\x60\n\nPlease analyze this content in the context of our conversation."

/-!  The streaming chat client (`get_ollama_response`, lines 72-131).  -/

/-- One line of the streamed response body: skipped when falsy, skipped when
it fails to decode as JSON, otherwise a chunk whose `message.content`
fragment may be absent. -/
inductive StreamLine where
  | blank : StreamLine
  | malformed : StreamLine
  | chunk (message_content : Option String) : StreamLine
deriving DecidableEq, Repr

/-- Outcome of the streaming POST: a successful stream of lines, or one of
the three failure classes distinguished by the handlers of lines 118-129. -/
inductive NetworkOutcome where
  | success (lines : List StreamLine) : NetworkOutcome
  | connectionError : NetworkOutcome
  | httpError (status : Nat) (body : String) : NetworkOutcome
  | otherError (description : String) : NetworkOutcome
deriving DecidableEq, Repr

/-- Concatenation of the `message.content` fragments in arrival order
(lines 106-115): blank and malformed lines are skipped. -/
def streamText (lines : List StreamLine) : String :=
  lines.foldl
    (fun acc l =>
      match l with
      | StreamLine.chunk (some c) => acc ++ c
      | _ => acc)
    ""

/-- The history filter of lines 89-92: drop messages whose content starts
with the upload-confirmation prefix or the thinking placeholder. -/
def filtered_chat_history (chat_history : List Message) : List Message :=
  chat_history.filter
    (fun msg => !(pyStartsWith msg.content PREFIX_FILE) &&
                !(pyStartsWith msg.content PREFIX_THINKING))

/-- The ordered message list built by lines 80-95: system prompt, then
(when the document content is truthy) the synthetic document message, then
the filtered history, then the new user prompt. -/
def build_ollama_messages (user_prompt : String) (chat_history : List Message)
    (system_prompt : String) (file_content : Option String)
    (session_file_name : Option String) : List Message :=
  let ollama_messages := [Message.mk "system" system_prompt]
  let ollama_messages :=
    if truthy file_content then
      ollama_messages ++
        [Message.mk "user" (fileWrapper session_file_name (file_content.getD ""))]
    else ollama_messages
  let ollama_messages :=
    ollama_messages ++
      (filtered_chat_history chat_history).map (fun m => Message.mk m.role m.content)
  ollama_messages ++ [Message.mk "user" user_prompt]

/-- Return value of `get_ollama_response` (lines 72-131): on a successful
stream, the concatenated fragments; each caught failure class yields its
fixed substitute text.  The function is total: no failure propagates. -/
def get_ollama_response (net : NetworkOutcome) (user_prompt : String)
    (chat_history : List Message) (system_prompt : String)
    (file_content : Option String) (session_file_name : Option String) : String :=
  match net with
  | NetworkOutcome.success lines => streamText lines
  | NetworkOutcome.connectionError => APOLOGY_CONNECTION
  | NetworkOutcome.httpError _ _ => APOLOGY_HTTP
  | NetworkOutcome.otherError _ => APOLOGY_OTHER

/-- Record of one invocation of the chat client, capturing the arguments
passed and the session file name read while building the message list. -/
structure ModelCall where
  user_prompt : String
  chat_history : List Message
  system_prompt : String
  file_content : Option String
  session_file_name : Option String
deriving DecidableEq, Repr

/-- The message list a recorded invocation sends to the model. -/
def sentMessages (c : ModelCall) : List Message :=
  build_ollama_messages c.user_prompt c.chat_history c.system_prompt
    c.file_content c.session_file_name

/-!  Session state and the flow controller (`main`, lines 134-318).  -/

/-- The session-scoped state initialised by `initialize_session_state`. -/
structure SessionState where
  messages : List Message
  uploaded_file_content : Option String
  uploaded_file_name : Option String
  file_analysis_triggered : Bool
  current_flow : String
  last_button_click : Option String
deriving DecidableEq, Repr

/-- Session state plus the file currently held by the upload widget (the
widget retains its file across script runs until changed or cleared). -/
structure AppState where
  sess : SessionState
  widget : Option (String × String)
deriving DecidableEq, Repr

/-- Fresh session state (`initialize_session_state`, lines 33-48). -/
def init_session : SessionState :=
  { messages := []
    uploaded_file_content := none
    uploaded_file_name := none
    file_analysis_triggered := false
    current_flow := FLOW_WELCOME
    last_button_click := none }

/-- The option rows rendered for each stage (lines 155-163, 171-174,
208-215, 223-230): label paired with the flow it transitions to. -/
def stageOptions (flow : String) : List (String × String) :=
  if flow = FLOW_WELCOME then
    [(LBL_START, FLOW_NEW_BUSINESS_START),
     (LBL_RUN, FLOW_EXISTING_BUSINESS_NEEDS),
     (LBL_FUNDING, FLOW_FREE_TEXT),
     (LBL_TRACK, FLOW_FREE_TEXT),
     (LBL_LEARN, FLOW_LEARN_MORE_TOPICS),
     (LBL_QUESTION, FLOW_FREE_TEXT)]
  else if flow = FLOW_NEW_BUSINESS_START then
    [(LBL_IDEA, FLOW_NEW_BUSINESS_IDEA),
     (LBL_NOIDEA, FLOW_NEW_BUSINESS_NO_IDEA)]
  else if flow = FLOW_EXISTING_BUSINESS_NEEDS then
    [("Track cash flow", FLOW_FREE_TEXT),
     ("Check funding eligibility", FLOW_FREE_TEXT),
     ("Get budget advice", FLOW_FREE_TEXT),
     ("Improve financial health score", FLOW_FREE_TEXT),
     ("Other", FLOW_FREE_TEXT)]
  else if flow = FLOW_LEARN_MORE_TOPICS then
    [("How to budget better", FLOW_FREE_TEXT),
     ("How to save money", FLOW_FREE_TEXT),
     ("How to get more customers", FLOW_FREE_TEXT),
     ("How to file taxes", FLOW_FREE_TEXT),
     ("Other", FLOW_FREE_TEXT)]
  else []

/-- State mutations of the stage-entry section (lines 151-246), i.e. the
conditional chain over `current_flow` executed at the top of every script
run, excluding pure rendering.  Guarded stages compare the pending click
with the label that leads to them and guard against the canned line being
already last; the free-text branch consumes any truthy pending click. -/
def runEntry (s : SessionState) : SessionState :=
  if s.current_flow = FLOW_WELCOME then
    if s.messages = [] ∨ lastContent s.messages ≠ some MSG_WELCOME then
      { s with messages := s.messages ++ [Message.mk "assistant" MSG_WELCOME] }
    else s
  else if s.current_flow = FLOW_NEW_BUSINESS_START then
    if s.last_button_click = some LBL_START ∧
        (s.messages = [] ∨ lastContent s.messages ≠ some MSG_NBS) then
      { s with
          messages := s.messages ++
            [Message.mk "user" LBL_START, Message.mk "assistant" MSG_NBS],
          last_button_click := none }
    else s
  else if s.current_flow = FLOW_NEW_BUSINESS_IDEA then
    if s.last_button_click = some LBL_IDEA ∧
        (s.messages = [] ∨ lastContent s.messages ≠ some MSG_IDEA) then
      { s with
          messages := s.messages ++
            [Message.mk "user" LBL_IDEA, Message.mk "assistant" MSG_IDEA,
             Message.mk "assistant" MSG_IDEA_NOTE],
          last_button_click := none }
    else s
  else if s.current_flow = FLOW_NEW_BUSINESS_NO_IDEA then
    if s.last_button_click = some LBL_NOIDEA ∧
        (s.messages = [] ∨ lastContent s.messages ≠ some MSG_NOIDEA) then
      { s with
          messages := s.messages ++
            [Message.mk "user" LBL_NOIDEA, Message.mk "assistant" MSG_NOIDEA,
             Message.mk "assistant" MSG_NOIDEA_NOTE],
          last_button_click := none }
    else s
  else if s.current_flow = FLOW_EXISTING_BUSINESS_NEEDS then
    if s.last_button_click = some LBL_RUN ∧
        (s.messages = [] ∨ lastContent s.messages ≠ some MSG_EXISTING) then
      { s with
          messages := s.messages ++
            [Message.mk "user" LBL_RUN, Message.mk "assistant" MSG_EXISTING],
          last_button_click := none }
    else s
  else if s.current_flow = FLOW_LEARN_MORE_TOPICS then
    if s.last_button_click = some LBL_LEARN ∧
        (s.messages = [] ∨ lastContent s.messages ≠ some MSG_LEARN) then
      { s with
          messages := s.messages ++
            [Message.mk "user" LBL_LEARN, Message.mk "assistant" MSG_LEARN],
          last_button_click := none }
    else s
  else if s.current_flow = FLOW_FREE_TEXT ∨ s.current_flow = FLOW_FILE_ANALYSIS then
    match s.last_button_click with
    | some lbl =>
        if lbl ≠ "" then
          { s with
              messages := s.messages ++ [Message.mk "user" lbl],
              last_button_click := none,
              current_flow := FLOW_FREE_TEXT }
        else s
    | none => s
  else s

/-- The file-uploader section (lines 251-284) executed with the file held
by the widget: a file whose name differs from the stored one is stored and
confirmed (with a rerun); otherwise, a stored truthy and not-yet-analyzed
content triggers the automatic analysis call on an empty history (with a
rerun).  Returns the new state, the recorded calls, and the rerun flag. -/
def uploadStage (s : SessionState) (widget : Option (String × String))
    (net : NetworkOutcome) : SessionState × List ModelCall × Bool :=
  match widget with
  | none => (s, [], false)
  | some (nm, content) =>
      if s.uploaded_file_name ≠ some nm then
        ({ s with
            uploaded_file_name := some nm,
            uploaded_file_content := some content,
            file_analysis_triggered := false,
            messages := s.messages ++ [Message.mk "assistant" (uploadConfirmMsg nm)],
            current_flow := FLOW_FILE_ANALYSIS }, [], true)
      else
        let current_file_content := s.uploaded_file_content
        if truthy current_file_content = true ∧ s.file_analysis_triggered = false then
          let initial_analysis_response :=
            get_ollama_response net FILE_ANALYSIS_TRIGGER_PROMPT []
              DEFAULT_SYSTEM_PROMPT current_file_content s.uploaded_file_name
          ({ s with
              messages := s.messages ++
                [Message.mk "assistant" initial_analysis_response],
              file_analysis_triggered := true,
              current_flow := FLOW_FREE_TEXT },
           [⟨FILE_ANALYSIS_TRIGGER_PROMPT, [], DEFAULT_SYSTEM_PROMPT,
             current_file_content, s.uploaded_file_name⟩], true)
        else (s, [], false)

/-- The chat-input section (lines 288-305) executed with a submitted
prompt: a falsy prompt does nothing; otherwise the flow is forced to
free text (unless already free text or file analysis), the prompt is
appended, and either the live-agent hand-off runs (with a rerun) or the
model is called with the updated log as history. -/
def chatStage (s : SessionState) (prompt : String) (net : NetworkOutcome) :
    SessionState × List ModelCall × Bool :=
  if prompt = "" then (s, [], false)
  else
    let s :=
      if ¬ (s.current_flow = FLOW_FREE_TEXT ∨ s.current_flow = FLOW_FILE_ANALYSIS) then
        { s with current_flow := FLOW_FREE_TEXT }
      else s
    let s := { s with messages := s.messages ++ [Message.mk "user" prompt] }
    if pyLower prompt = "live agent" then
      ({ s with
          messages := s.messages ++ [Message.mk "assistant" MSG_HANDOFF],
          current_flow := FLOW_HUMAN_SUPPORT }, [], true)
    else
      let file_content :=
        if s.file_analysis_triggered = true then s.uploaded_file_content else none
      let assistant_response :=
        get_ollama_response net prompt s.messages DEFAULT_SYSTEM_PROMPT
          file_content s.uploaded_file_name
      ({ s with messages := s.messages ++ [Message.mk "assistant" assistant_response] },
       [⟨prompt, s.messages, DEFAULT_SYSTEM_PROMPT, file_content,
         s.uploaded_file_name⟩], false)

/-- The human-support section (lines 308-315): when the flow is human
support and the expert button is pressed, append the hand-off message and
return to free text. -/
def humanStage (s : SessionState) (pressed : Bool) : SessionState :=
  if s.current_flow = FLOW_HUMAN_SUPPORT ∧ pressed = true then
    { s with
        messages := s.messages ++ [Message.mk "assistant" MSG_EXPERT],
        current_flow := FLOW_FREE_TEXT }
  else s

/-- One script run carrying no user input: entry section, then the
uploader section on the retained widget file.  The chat-input and
human-support sections receive no input and do nothing. -/
def plainRunOnce (a : AppState) (net : NetworkOutcome) :
    AppState × List ModelCall × Bool :=
  let s1 := runEntry a.sess
  let r := uploadStage s1 a.widget net
  (⟨r.1, a.widget⟩, r.2.1, r.2.2)

/-- Input-free script runs chained until no rerun is requested.  At most
three runs can occur: a store rerun, then an analysis rerun, then a stable
run, so the unrolling below is exact. -/
def plainCycle (a : AppState) (net : NetworkOutcome) : AppState × List ModelCall :=
  let r1 := plainRunOnce a net
  if r1.2.2 then
    let r2 := plainRunOnce r1.1 net
    if r2.2.2 then
      let r3 := plainRunOnce r2.1 net
      (r3.1, r1.2.1 ++ r2.2.1 ++ r3.2.1)
    else (r2.1, r1.2.1 ++ r2.2.1)
  else (r1.1, r1.2.1)

/-- A script run triggered with no new user input at all. -/
def stepRerun (a : AppState) (net : NetworkOutcome) : AppState × List ModelCall :=
  plainCycle a net

/-- Clicking the option `(label, tgt)` rendered by the current stage
(lines 63-70): in the click run the entry section executes first, then the
button handler stores the label as pending click, moves to the target
flow, and reruns; the rerun then settles. -/
def stepClick (a : AppState) (label tgt : String) (net : NetworkOutcome) :
    AppState × List ModelCall :=
  let s1 := runEntry a.sess
  let s2 := { s1 with last_button_click := some label, current_flow := tgt }
  plainCycle ⟨s2, a.widget⟩ net

/-- Clicking one of the back-to-main-menu buttons (lines 186-188, 198-200,
244-246), rendered only in the two idea stages, free text and file
analysis: the entry section executes first, then the flow moves to welcome
and a rerun settles. -/
def stepBack (a : AppState) (net : NetworkOutcome) : AppState × List ModelCall :=
  if a.sess.current_flow = FLOW_NEW_BUSINESS_IDEA ∨
      a.sess.current_flow = FLOW_NEW_BUSINESS_NO_IDEA ∨
      a.sess.current_flow = FLOW_FREE_TEXT ∨
      a.sess.current_flow = FLOW_FILE_ANALYSIS then
    let s1 := runEntry a.sess
    plainCycle ⟨{ s1 with current_flow := FLOW_WELCOME }, a.widget⟩ net
  else (a, [])

/-- Uploading a file: the widget now holds it, and the run proceeds as an
input-free run whose uploader section sees the new file. -/
def stepUpload (a : AppState) (nm content : String) (net : NetworkOutcome) :
    AppState × List ModelCall :=
  plainCycle ⟨a.sess, some (nm, content)⟩ net

/-- Clearing the file from the upload widget. -/
def stepRemove (a : AppState) (net : NetworkOutcome) : AppState × List ModelCall :=
  plainCycle ⟨a.sess, none⟩ net

/-- Submitting text in the chat input: entry and uploader sections run
first (a rerun requested there aborts the run and drops the input), then
the chat-input section processes the prompt; a live-agent hand-off reruns,
otherwise the run ends at the inert human-support section. -/
def stepType (a : AppState) (p : String) (net : NetworkOutcome) :
    AppState × List ModelCall :=
  let s1 := runEntry a.sess
  let r2 := uploadStage s1 a.widget net
  if r2.2.2 then
    let r := plainCycle ⟨r2.1, a.widget⟩ net
    (r.1, r2.2.1 ++ r.2)
  else
    let r3 := chatStage r2.1 p net
    if r3.2.2 then
      let r := plainCycle ⟨r3.1, a.widget⟩ net
      (r.1, r2.2.1 ++ r3.2.1 ++ r.2)
    else
      (⟨humanStage r3.1 false, a.widget⟩, r2.2.1 ++ r3.2.1)

/-- Pressing the talk-to-a-human-expert button: entry and uploader
sections run first, then the human-support section handles the press. -/
def stepHuman (a : AppState) (net : NetworkOutcome) : AppState × List ModelCall :=
  let s1 := runEntry a.sess
  let r2 := uploadStage s1 a.widget net
  if r2.2.2 then
    let r := plainCycle ⟨r2.1, a.widget⟩ net
    (r.1, r2.2.1 ++ r.2)
  else
    (⟨humanStage r2.1 true, a.widget⟩, r2.2.1)

/-- A user-visible interaction event, carrying the network oracle for any
model call it may trigger. -/
inductive Event where
  | click (label tgt : String) (net : NetworkOutcome) : Event
  | back (net : NetworkOutcome) : Event
  | typed (p : String) (net : NetworkOutcome) : Event
  | upload (nm content : String) (net : NetworkOutcome) : Event
  | removeFile (net : NetworkOutcome) : Event
  | human (net : NetworkOutcome) : Event
  | rerun (net : NetworkOutcome) : Event

/-- Dispatch of one event to its step function. -/
def stepEvent (a : AppState) : Event → AppState × List ModelCall
  | Event.click label tgt net => stepClick a label tgt net
  | Event.back net => stepBack a net
  | Event.typed p net => stepType a p net
  | Event.upload nm content net => stepUpload a nm content net
  | Event.removeFile net => stepRemove a net
  | Event.human net => stepHuman a net
  | Event.rerun net => stepRerun a net

/-- Folding a list of events from a state, accumulating all model calls. -/
def runSession (a : AppState) (evs : List Event) : AppState × List ModelCall :=
  evs.foldl
    (fun acc e =>
      let r := stepEvent acc.1 e
      (r.1, acc.2 ++ r.2))
    (a, [])

/-- The whole application given its two required settings (lines 136-141):
a falsy `OLLAMA_API_BASE` or `OLLAMA_MODEL` halts with the corresponding
configuration error before any session state exists; otherwise the session
runs from the freshly rendered start state. -/
def appMain (ollama_api_base ollama_model : Option String) (evs : List Event) :
    Except String (AppState × List ModelCall) :=
  if truthy ollama_api_base = false then Except.error CONFIG_ERR_BASE
  else if truthy ollama_model = false then Except.error CONFIG_ERR_MODEL
  else
    Except.ok (runSession
      ⟨{ init_session with messages := [Message.mk "assistant" MSG_WELCOME] }, none⟩
      evs)

/-- The state after the initial render of a fresh session: the welcome
greeting has been appended by the first script run. -/
def startState : AppState :=
  ⟨{ init_session with messages := [Message.mk "assistant" MSG_WELCOME] }, none⟩

/-- Reachable application states: the freshly rendered start state, closed
under every event; a click event is only possible for an option the
current stage actually renders. -/
inductive Reachable : AppState → Prop
  | start : Reachable startState
  | click {a : AppState} {label tgt : String} (net : NetworkOutcome) :
      Reachable a → (label, tgt) ∈ stageOptions a.sess.current_flow →
      Reachable (stepClick a label tgt net).1
  | back {a : AppState} (net : NetworkOutcome) :
      Reachable a → Reachable (stepBack a net).1
  | typed {a : AppState} (p : String) (net : NetworkOutcome) :
      Reachable a → Reachable (stepType a p net).1
  | upload {a : AppState} (nm content : String) (net : NetworkOutcome) :
      Reachable a → Reachable (stepUpload a nm content net).1
  | removeFile {a : AppState} (net : NetworkOutcome) :
      Reachable a → Reachable (stepRemove a net).1
  | human {a : AppState} (net : NetworkOutcome) :
      Reachable a → Reachable (stepHuman a net).1
  | rerun {a : AppState} (net : NetworkOutcome) :
      Reachable a → Reachable (stepRerun a net).1

/-- The inductive session invariant: no pending click survives a step
boundary; at welcome and new-business-start boundaries the last log entry
is the corresponding canned line; truthy stored document content has
always been analyzed; the widget file, if any, carries the stored name. -/
def SessionInv (a : AppState) : Prop :=
  a.sess.last_button_click = none ∧
  (a.sess.current_flow = FLOW_WELCOME →
    lastContent a.sess.messages = some MSG_WELCOME) ∧
  (a.sess.current_flow = FLOW_NEW_BUSINESS_START →
    lastContent a.sess.messages = some MSG_NBS) ∧
  (truthy a.sess.uploaded_file_content = true →
    a.sess.file_analysis_triggered = true) ∧
  (∀ nm content, a.widget = some (nm, content) →
    a.sess.uploaded_file_name = some nm)

/-- The contract of an option click: exactly one user-echo message holding
the clicked label is appended (anything further appended is assistant
text), the flow moves to the target, the pending selection ends cleared,
no model call happens, the widget is untouched, and the session invariant
is preserved. -/
def clickOutcome (a : AppState) (label tgt : String) (net : NetworkOutcome) : Prop :=
  ∃ rest : List Message,
    (stepClick a label tgt net).1.sess.messages
        = a.sess.messages ++ Message.mk "user" label :: rest ∧
    (∀ m ∈ rest, m.role = "assistant") ∧
    (stepClick a label tgt net).1.sess.current_flow = tgt ∧
    (stepClick a label tgt net).1.sess.last_button_click = none ∧
    (stepClick a label tgt net).2 = [] ∧
    (stepClick a label tgt net).1.widget = a.widget ∧
    SessionInv (stepClick a label tgt net).1

/-- The document context a free-text turn passes to the chat client
(line 304): the stored content when the analysis already ran, else none. -/
def modelFileContext (a : AppState) : Option String :=
  if a.sess.file_analysis_triggered = true then a.sess.uploaded_file_content
  else none

/-!  Supporting lemmas.  -/

set_option maxRecDepth 100000

theorem lastContent_append (l : List Message) (m : Message) :
    lastContent (l ++ [m]) = some m.content := by
  simp [lastContent]

theorem lastContent_append2 (l : List Message) (m1 m2 : Message) :
    lastContent (l ++ [m1, m2]) = some m2.content := by
  simp [lastContent]

theorem lastContent_append3 (l : List Message) (m1 m2 m3 : Message) :
    lastContent (l ++ [m1, m2, m3]) = some m3.content := by
  simp [lastContent]

theorem guard_of_lastContent {l : List Message} {x : String}
    (h : lastContent l = some x) {y : String} (hxy : x ≠ y) :
    l = [] ∨ lastContent l ≠ some y := by
  right
  rw [h]
  simp [hxy]

theorem runEntry_noop (s : SessionState)
    (hclick : s.last_button_click = none)
    (hw : s.current_flow = FLOW_WELCOME → lastContent s.messages = some MSG_WELCOME) :
    runEntry s = s := by
  by_cases h1 : s.current_flow = FLOW_WELCOME
  · have hlast := hw h1
    have hne : s.messages ≠ [] := by
      intro h0
      rw [h0] at hlast
      simp [lastContent] at hlast
    simp [runEntry, h1, hlast, hne, hclick]
  · simp [runEntry, h1, hclick]

theorem uploadStage_noop (s : SessionState) (w : Option (String × String))
    (net : NetworkOutcome)
    (hsync : ∀ nm content, w = some (nm, content) → s.uploaded_file_name = some nm)
    (htrig : truthy s.uploaded_file_content = true → s.file_analysis_triggered = true) :
    uploadStage s w net = (s, [], false) := by
  match w with
  | none => rfl
  | some (nm, content) =>
    have h1 : s.uploaded_file_name = some nm := hsync nm content rfl
    by_cases h2 : truthy s.uploaded_file_content = true
    · simp [uploadStage, h1, htrig h2]
    · simp [uploadStage, h1, h2]

theorem plainCycle_of_inv (a : AppState) (net : NetworkOutcome) (h : SessionInv a) :
    plainCycle a net = (a, []) := by
  obtain ⟨h1, h2, _h3, h4, h5⟩ := h
  have he : runEntry a.sess = a.sess := runEntry_noop _ h1 h2
  have hu : uploadStage a.sess a.widget net = (a.sess, [], false) :=
    uploadStage_noop _ _ _ h5 h4
  simp [plainCycle, plainRunOnce, he, hu]

theorem startState_inv : SessionInv startState := by
  refine ⟨rfl, fun _ => rfl, ?_, ?_, ?_⟩
  · intro h
    exact absurd h (by decide)
  · intro h
    exact absurd h (by decide)
  · intro nm content h
    exact Option.noConfusion h

theorem stepClick_eq (a : AppState) (label tgt : String) (net : NetworkOutcome)
    (he : runEntry a.sess = a.sess) :
    stepClick a label tgt net =
      plainCycle ⟨{ a.sess with last_button_click := some label, current_flow := tgt },
        a.widget⟩ net := by
  simp [stepClick, he]

theorem clickCycle_nbs (s : SessionState) (w : Option (String × String))
    (net : NetworkOutcome)
    (hguard : s.messages = [] ∨ lastContent s.messages ≠ some MSG_NBS)
    (hsync : ∀ nm content, w = some (nm, content) → s.uploaded_file_name = some nm)
    (htrig : truthy s.uploaded_file_content = true → s.file_analysis_triggered = true) :
    plainCycle ⟨{ s with last_button_click := some LBL_START,
                         current_flow := FLOW_NEW_BUSINESS_START }, w⟩ net =
      (⟨{ s with
            messages := s.messages ++
              [Message.mk "user" LBL_START, Message.mk "assistant" MSG_NBS],
            last_button_click := none,
            current_flow := FLOW_NEW_BUSINESS_START }, w⟩, []) := by
  obtain ⟨msgs, ufc, ufn, fat, cf, lbc⟩ := s
  have hu : uploadStage
      (SessionState.mk
        (msgs ++ [Message.mk "user" LBL_START, Message.mk "assistant" MSG_NBS])
        ufc ufn fat FLOW_NEW_BUSINESS_START none) w net =
      (SessionState.mk
        (msgs ++ [Message.mk "user" LBL_START, Message.mk "assistant" MSG_NBS])
        ufc ufn fat FLOW_NEW_BUSINESS_START none, [], false) :=
    uploadStage_noop _ _ _ hsync htrig
  simp only [FLOW_NEW_BUSINESS_START] at hu
  simp [plainCycle, plainRunOnce, runEntry, FLOW_WELCOME, FLOW_NEW_BUSINESS_START,
    hguard, hu]

theorem clickCycle_idea (s : SessionState) (w : Option (String × String))
    (net : NetworkOutcome)
    (hguard : s.messages = [] ∨ lastContent s.messages ≠ some MSG_IDEA)
    (hsync : ∀ nm content, w = some (nm, content) → s.uploaded_file_name = some nm)
    (htrig : truthy s.uploaded_file_content = true → s.file_analysis_triggered = true) :
    plainCycle ⟨{ s with last_button_click := some LBL_IDEA,
                         current_flow := FLOW_NEW_BUSINESS_IDEA }, w⟩ net =
      (⟨{ s with
            messages := s.messages ++
              [Message.mk "user" LBL_IDEA, Message.mk "assistant" MSG_IDEA,
               Message.mk "assistant" MSG_IDEA_NOTE],
            last_button_click := none,
            current_flow := FLOW_NEW_BUSINESS_IDEA }, w⟩, []) := by
  obtain ⟨msgs, ufc, ufn, fat, cf, lbc⟩ := s
  have hu : uploadStage
      (SessionState.mk
        (msgs ++ [Message.mk "user" LBL_IDEA, Message.mk "assistant" MSG_IDEA,
          Message.mk "assistant" MSG_IDEA_NOTE])
        ufc ufn fat FLOW_NEW_BUSINESS_IDEA none) w net =
      (SessionState.mk
        (msgs ++ [Message.mk "user" LBL_IDEA, Message.mk "assistant" MSG_IDEA,
          Message.mk "assistant" MSG_IDEA_NOTE])
        ufc ufn fat FLOW_NEW_BUSINESS_IDEA none, [], false) :=
    uploadStage_noop _ _ _ hsync htrig
  simp only [FLOW_NEW_BUSINESS_IDEA] at hu
  simp [plainCycle, plainRunOnce, runEntry, FLOW_WELCOME, FLOW_NEW_BUSINESS_START,
    FLOW_NEW_BUSINESS_IDEA, hguard, hu]

theorem clickCycle_noidea (s : SessionState) (w : Option (String × String))
    (net : NetworkOutcome)
    (hguard : s.messages = [] ∨ lastContent s.messages ≠ some MSG_NOIDEA)
    (hsync : ∀ nm content, w = some (nm, content) → s.uploaded_file_name = some nm)
    (htrig : truthy s.uploaded_file_content = true → s.file_analysis_triggered = true) :
    plainCycle ⟨{ s with last_button_click := some LBL_NOIDEA,
                         current_flow := FLOW_NEW_BUSINESS_NO_IDEA }, w⟩ net =
      (⟨{ s with
            messages := s.messages ++
              [Message.mk "user" LBL_NOIDEA, Message.mk "assistant" MSG_NOIDEA,
               Message.mk "assistant" MSG_NOIDEA_NOTE],
            last_button_click := none,
            current_flow := FLOW_NEW_BUSINESS_NO_IDEA }, w⟩, []) := by
  obtain ⟨msgs, ufc, ufn, fat, cf, lbc⟩ := s
  have hu : uploadStage
      (SessionState.mk
        (msgs ++ [Message.mk "user" LBL_NOIDEA, Message.mk "assistant" MSG_NOIDEA,
          Message.mk "assistant" MSG_NOIDEA_NOTE])
        ufc ufn fat FLOW_NEW_BUSINESS_NO_IDEA none) w net =
      (SessionState.mk
        (msgs ++ [Message.mk "user" LBL_NOIDEA, Message.mk "assistant" MSG_NOIDEA,
          Message.mk "assistant" MSG_NOIDEA_NOTE])
        ufc ufn fat FLOW_NEW_BUSINESS_NO_IDEA none, [], false) :=
    uploadStage_noop _ _ _ hsync htrig
  simp only [FLOW_NEW_BUSINESS_NO_IDEA] at hu
  simp [plainCycle, plainRunOnce, runEntry, FLOW_WELCOME, FLOW_NEW_BUSINESS_START,
    FLOW_NEW_BUSINESS_IDEA, FLOW_NEW_BUSINESS_NO_IDEA, hguard, hu]

theorem clickCycle_existing (s : SessionState) (w : Option (String × String))
    (net : NetworkOutcome)
    (hguard : s.messages = [] ∨ lastContent s.messages ≠ some MSG_EXISTING)
    (hsync : ∀ nm content, w = some (nm, content) → s.uploaded_file_name = some nm)
    (htrig : truthy s.uploaded_file_content = true → s.file_analysis_triggered = true) :
    plainCycle ⟨{ s with last_button_click := some LBL_RUN,
                         current_flow := FLOW_EXISTING_BUSINESS_NEEDS }, w⟩ net =
      (⟨{ s with
            messages := s.messages ++
              [Message.mk "user" LBL_RUN, Message.mk "assistant" MSG_EXISTING],
            last_button_click := none,
            current_flow := FLOW_EXISTING_BUSINESS_NEEDS }, w⟩, []) := by
  obtain ⟨msgs, ufc, ufn, fat, cf, lbc⟩ := s
  have hu : uploadStage
      (SessionState.mk
        (msgs ++ [Message.mk "user" LBL_RUN, Message.mk "assistant" MSG_EXISTING])
        ufc ufn fat FLOW_EXISTING_BUSINESS_NEEDS none) w net =
      (SessionState.mk
        (msgs ++ [Message.mk "user" LBL_RUN, Message.mk "assistant" MSG_EXISTING])
        ufc ufn fat FLOW_EXISTING_BUSINESS_NEEDS none, [], false) :=
    uploadStage_noop _ _ _ hsync htrig
  simp only [FLOW_EXISTING_BUSINESS_NEEDS] at hu
  simp [plainCycle, plainRunOnce, runEntry, FLOW_WELCOME, FLOW_NEW_BUSINESS_START,
    FLOW_NEW_BUSINESS_IDEA, FLOW_NEW_BUSINESS_NO_IDEA, FLOW_EXISTING_BUSINESS_NEEDS,
    hguard, hu]

theorem clickCycle_learn (s : SessionState) (w : Option (String × String))
    (net : NetworkOutcome)
    (hguard : s.messages = [] ∨ lastContent s.messages ≠ some MSG_LEARN)
    (hsync : ∀ nm content, w = some (nm, content) → s.uploaded_file_name = some nm)
    (htrig : truthy s.uploaded_file_content = true → s.file_analysis_triggered = true) :
    plainCycle ⟨{ s with last_button_click := some LBL_LEARN,
                         current_flow := FLOW_LEARN_MORE_TOPICS }, w⟩ net =
      (⟨{ s with
            messages := s.messages ++
              [Message.mk "user" LBL_LEARN, Message.mk "assistant" MSG_LEARN],
            last_button_click := none,
            current_flow := FLOW_LEARN_MORE_TOPICS }, w⟩, []) := by
  obtain ⟨msgs, ufc, ufn, fat, cf, lbc⟩ := s
  have hu : uploadStage
      (SessionState.mk
        (msgs ++ [Message.mk "user" LBL_LEARN, Message.mk "assistant" MSG_LEARN])
        ufc ufn fat FLOW_LEARN_MORE_TOPICS none) w net =
      (SessionState.mk
        (msgs ++ [Message.mk "user" LBL_LEARN, Message.mk "assistant" MSG_LEARN])
        ufc ufn fat FLOW_LEARN_MORE_TOPICS none, [], false) :=
    uploadStage_noop _ _ _ hsync htrig
  simp only [FLOW_LEARN_MORE_TOPICS] at hu
  simp [plainCycle, plainRunOnce, runEntry, FLOW_WELCOME, FLOW_NEW_BUSINESS_START,
    FLOW_NEW_BUSINESS_IDEA, FLOW_NEW_BUSINESS_NO_IDEA, FLOW_EXISTING_BUSINESS_NEEDS,
    FLOW_LEARN_MORE_TOPICS, hguard, hu]

theorem clickCycle_free (s : SessionState) (w : Option (String × String))
    (net : NetworkOutcome) (label : String) (hlbl : ¬ label = "")
    (hsync : ∀ nm content, w = some (nm, content) → s.uploaded_file_name = some nm)
    (htrig : truthy s.uploaded_file_content = true → s.file_analysis_triggered = true) :
    plainCycle ⟨{ s with last_button_click := some label,
                         current_flow := FLOW_FREE_TEXT }, w⟩ net =
      (⟨{ s with
            messages := s.messages ++ [Message.mk "user" label],
            last_button_click := none,
            current_flow := FLOW_FREE_TEXT }, w⟩, []) := by
  obtain ⟨msgs, ufc, ufn, fat, cf, lbc⟩ := s
  have hu : uploadStage
      (SessionState.mk (msgs ++ [Message.mk "user" label])
        ufc ufn fat FLOW_FREE_TEXT none) w net =
      (SessionState.mk (msgs ++ [Message.mk "user" label])
        ufc ufn fat FLOW_FREE_TEXT none, [], false) :=
    uploadStage_noop _ _ _ hsync htrig
  simp only [FLOW_FREE_TEXT] at hu
  simp [plainCycle, plainRunOnce, runEntry, FLOW_WELCOME, FLOW_NEW_BUSINESS_START,
    FLOW_NEW_BUSINESS_IDEA, FLOW_NEW_BUSINESS_NO_IDEA, FLOW_EXISTING_BUSINESS_NEEDS,
    FLOW_LEARN_MORE_TOPICS, FLOW_FREE_TEXT, FLOW_FILE_ANALYSIS, hlbl, hu]

theorem stepClick_free_case (a : AppState) (label : String) (net : NetworkOutcome)
    (h : SessionInv a) (hlbl : ¬ label = "") :
    clickOutcome a label FLOW_FREE_TEXT net := by
  obtain ⟨h1, h2, h3, h4, h5⟩ := h
  have he : runEntry a.sess = a.sess := runEntry_noop _ h1 h2
  unfold clickOutcome
  rw [stepClick_eq a label FLOW_FREE_TEXT net he,
    clickCycle_free a.sess a.widget net label hlbl h5 h4]
  exact ⟨[], rfl, by simp, rfl, rfl, rfl, rfl,
    rfl, fun hc => absurd hc (show FLOW_FREE_TEXT ≠ FLOW_WELCOME by decide),
    fun hc => absurd hc (show FLOW_FREE_TEXT ≠ FLOW_NEW_BUSINESS_START by decide),
    h4, h5⟩

theorem stepClick_spec (a : AppState) (label tgt : String) (net : NetworkOutcome)
    (h : SessionInv a) (hmem : (label, tgt) ∈ stageOptions a.sess.current_flow) :
    clickOutcome a label tgt net := by
  obtain ⟨h1, h2, h3, h4, h5⟩ := h
  have he : runEntry a.sess = a.sess := runEntry_noop _ h1 h2
  by_cases hw : a.sess.current_flow = FLOW_WELCOME
  · have hlast := h2 hw
    rw [hw] at hmem
    simp [stageOptions] at hmem
    rcases hmem with ⟨hl, ht⟩ | ⟨hl, ht⟩ | ⟨hl, ht⟩ | ⟨hl, ht⟩ | ⟨hl, ht⟩ | ⟨hl, ht⟩ <;>
      subst hl <;> subst ht
    · unfold clickOutcome
      rw [stepClick_eq a _ _ net he,
        clickCycle_nbs a.sess a.widget net (guard_of_lastContent hlast (by decide)) h5 h4]
      exact ⟨[Message.mk "assistant" MSG_NBS], rfl, by simp, rfl, rfl, rfl, rfl,
        rfl, fun hc => absurd hc (show FLOW_NEW_BUSINESS_START ≠ FLOW_WELCOME by decide),
        fun _ => by simp [lastContent_append2],
        h4, h5⟩
    · unfold clickOutcome
      rw [stepClick_eq a _ _ net he,
        clickCycle_existing a.sess a.widget net
          (guard_of_lastContent hlast (by decide)) h5 h4]
      exact ⟨[Message.mk "assistant" MSG_EXISTING], rfl, by simp, rfl, rfl, rfl, rfl,
        rfl,
        fun hc => absurd hc (show FLOW_EXISTING_BUSINESS_NEEDS ≠ FLOW_WELCOME by decide),
        fun hc => absurd hc
          (show FLOW_EXISTING_BUSINESS_NEEDS ≠ FLOW_NEW_BUSINESS_START by decide),
        h4, h5⟩
    · exact stepClick_free_case a _ net ⟨h1, h2, h3, h4, h5⟩ (by decide)
    · exact stepClick_free_case a _ net ⟨h1, h2, h3, h4, h5⟩ (by decide)
    · unfold clickOutcome
      rw [stepClick_eq a _ _ net he,
        clickCycle_learn a.sess a.widget net
          (guard_of_lastContent hlast (by decide)) h5 h4]
      exact ⟨[Message.mk "assistant" MSG_LEARN], rfl, by simp, rfl, rfl, rfl, rfl,
        rfl,
        fun hc => absurd hc (show FLOW_LEARN_MORE_TOPICS ≠ FLOW_WELCOME by decide),
        fun hc => absurd hc
          (show FLOW_LEARN_MORE_TOPICS ≠ FLOW_NEW_BUSINESS_START by decide),
        h4, h5⟩
    · exact stepClick_free_case a _ net ⟨h1, h2, h3, h4, h5⟩ (by decide)
  · by_cases hn : a.sess.current_flow = FLOW_NEW_BUSINESS_START
    · have hlast := h3 hn
      rw [hn] at hmem
      simp [stageOptions, FLOW_WELCOME, FLOW_NEW_BUSINESS_START] at hmem
      rcases hmem with ⟨hl, ht⟩ | ⟨hl, ht⟩ <;> subst hl <;> subst ht
      · unfold clickOutcome
        rw [stepClick_eq a _ _ net he,
          clickCycle_idea a.sess a.widget net
            (guard_of_lastContent hlast (by decide)) h5 h4]
        exact ⟨[Message.mk "assistant" MSG_IDEA, Message.mk "assistant" MSG_IDEA_NOTE],
          rfl, by simp, rfl, rfl, rfl, rfl,
          rfl,
          fun hc => absurd hc (show FLOW_NEW_BUSINESS_IDEA ≠ FLOW_WELCOME by decide),
          fun hc => absurd hc
            (show FLOW_NEW_BUSINESS_IDEA ≠ FLOW_NEW_BUSINESS_START by decide),
          h4, h5⟩
      · unfold clickOutcome
        rw [stepClick_eq a _ _ net he,
          clickCycle_noidea a.sess a.widget net
            (guard_of_lastContent hlast (by decide)) h5 h4]
        exact ⟨[Message.mk "assistant" MSG_NOIDEA, Message.mk "assistant" MSG_NOIDEA_NOTE],
          rfl, by simp, rfl, rfl, rfl, rfl,
          rfl,
          fun hc => absurd hc (show FLOW_NEW_BUSINESS_NO_IDEA ≠ FLOW_WELCOME by decide),
          fun hc => absurd hc
            (show FLOW_NEW_BUSINESS_NO_IDEA ≠ FLOW_NEW_BUSINESS_START by decide),
          h4, h5⟩
    · by_cases hx : a.sess.current_flow = FLOW_EXISTING_BUSINESS_NEEDS
      · rw [hx] at hmem
        simp [stageOptions, FLOW_WELCOME, FLOW_NEW_BUSINESS_START,
          FLOW_NEW_BUSINESS_IDEA, FLOW_NEW_BUSINESS_NO_IDEA,
          FLOW_EXISTING_BUSINESS_NEEDS] at hmem
        rcases hmem with ⟨hl, ht⟩ | ⟨hl, ht⟩ | ⟨hl, ht⟩ | ⟨hl, ht⟩ | ⟨hl, ht⟩ <;>
            subst hl <;> subst ht <;>
          exact stepClick_free_case a _ net ⟨h1, h2, h3, h4, h5⟩ (by decide)
      · by_cases hl2 : a.sess.current_flow = FLOW_LEARN_MORE_TOPICS
        · rw [hl2] at hmem
          simp [stageOptions, FLOW_WELCOME, FLOW_NEW_BUSINESS_START,
            FLOW_NEW_BUSINESS_IDEA, FLOW_NEW_BUSINESS_NO_IDEA,
            FLOW_EXISTING_BUSINESS_NEEDS, FLOW_LEARN_MORE_TOPICS] at hmem
          rcases hmem with ⟨hl, ht⟩ | ⟨hl, ht⟩ | ⟨hl, ht⟩ | ⟨hl, ht⟩ | ⟨hl, ht⟩ <;>
              subst hl <;> subst ht <;>
            exact stepClick_free_case a _ net ⟨h1, h2, h3, h4, h5⟩ (by decide)
        · simp [stageOptions, hw, hn, hx, hl2] at hmem

theorem humanStage_false (s : SessionState) : humanStage s false = s := by
  simp [humanStage]

theorem stepType_empty (a : AppState) (net : NetworkOutcome) (h : SessionInv a) :
    stepType a "" net = (a, []) := by
  obtain ⟨h1, h2, h3, h4, h5⟩ := h
  have he : runEntry a.sess = a.sess := runEntry_noop _ h1 h2
  have hu : uploadStage a.sess a.widget net = (a.sess, [], false) :=
    uploadStage_noop _ _ _ h5 h4
  simp [stepType, he, hu, chatStage, humanStage_false]

theorem stepType_live (a : AppState) (p : String) (net : NetworkOutcome)
    (h : SessionInv a) (hp : ¬ p = "") (hlive : pyLower p = "live agent") :
    stepType a p net =
      (⟨{ a.sess with
            messages := a.sess.messages ++
              [Message.mk "user" p, Message.mk "assistant" MSG_HANDOFF],
            current_flow := FLOW_HUMAN_SUPPORT }, a.widget⟩, []) := by
  obtain ⟨h1, h2, h3, h4, h5⟩ := h
  have he : runEntry a.sess = a.sess := runEntry_noop _ h1 h2
  have hu : uploadStage a.sess a.widget net = (a.sess, [], false) :=
    uploadStage_noop _ _ _ h5 h4
  have hinv2 : SessionInv
      ⟨{ a.sess with
           messages := a.sess.messages ++
             [Message.mk "user" p, Message.mk "assistant" MSG_HANDOFF],
           current_flow := FLOW_HUMAN_SUPPORT }, a.widget⟩ := by
    refine ⟨h1, ?_, ?_, h4, h5⟩
    · intro hc
      exact absurd hc (show FLOW_HUMAN_SUPPORT ≠ FLOW_WELCOME by decide)
    · intro hc
      exact absurd hc (show FLOW_HUMAN_SUPPORT ≠ FLOW_NEW_BUSINESS_START by decide)
  have hcy := plainCycle_of_inv _ net hinv2
  by_cases hfl : a.sess.current_flow = FLOW_FREE_TEXT ∨
      a.sess.current_flow = FLOW_FILE_ANALYSIS
  · simp [stepType, he, hu, chatStage, hp, hfl, hlive] at hcy ⊢
    simp [hcy]
  · simp [stepType, he, hu, chatStage, hp, hfl, hlive] at hcy ⊢
    simp [hcy]

theorem stepType_model (a : AppState) (p : String) (net : NetworkOutcome)
    (h : SessionInv a) (hp : ¬ p = "") (hlive : ¬ pyLower p = "live agent") :
    stepType a p net =
      (⟨{ a.sess with
            messages := a.sess.messages ++
              [Message.mk "user" p,
               Message.mk "assistant"
                 (get_ollama_response net p (a.sess.messages ++ [Message.mk "user" p])
                   DEFAULT_SYSTEM_PROMPT
                   (if a.sess.file_analysis_triggered = true then
                     a.sess.uploaded_file_content else none)
                   a.sess.uploaded_file_name)],
            current_flow :=
              if a.sess.current_flow = FLOW_FREE_TEXT ∨
                  a.sess.current_flow = FLOW_FILE_ANALYSIS then
                a.sess.current_flow
              else FLOW_FREE_TEXT }, a.widget⟩,
       [⟨p, a.sess.messages ++ [Message.mk "user" p], DEFAULT_SYSTEM_PROMPT,
         (if a.sess.file_analysis_triggered = true then
           a.sess.uploaded_file_content else none),
         a.sess.uploaded_file_name⟩]) := by
  obtain ⟨h1, h2, h3, h4, h5⟩ := h
  have he : runEntry a.sess = a.sess := runEntry_noop _ h1 h2
  have hu : uploadStage a.sess a.widget net = (a.sess, [], false) :=
    uploadStage_noop _ _ _ h5 h4
  by_cases hfl : a.sess.current_flow = FLOW_FREE_TEXT ∨
      a.sess.current_flow = FLOW_FILE_ANALYSIS
  · simp [stepType, he, hu, chatStage, hp, hfl, hlive, humanStage_false]
  · simp [stepType, he, hu, chatStage, hp, hfl, hlive, humanStage_false]

theorem stepUpload_same (a : AppState) (nm content : String) (net : NetworkOutcome)
    (h : SessionInv a) (hsame : a.sess.uploaded_file_name = some nm) :
    stepUpload a nm content net = (⟨a.sess, some (nm, content)⟩, []) := by
  obtain ⟨h1, h2, h3, h4, h5⟩ := h
  have he : runEntry a.sess = a.sess := runEntry_noop _ h1 h2
  have hu : uploadStage a.sess (some (nm, content)) net = (a.sess, [], false) :=
    uploadStage_noop _ _ _ (fun nm2 c2 hw => by
      cases hw
      exact hsame) h4
  simp [stepUpload, plainCycle, plainRunOnce, he, hu]

theorem stepUpload_new_full (a : AppState) (nm content : String) (net : NetworkOutcome)
    (h : SessionInv a) (hnew : a.sess.uploaded_file_name ≠ some nm)
    (hc : ¬ content = "") :
    stepUpload a nm content net =
      (⟨{ a.sess with
            messages := a.sess.messages ++
              [Message.mk "assistant" (uploadConfirmMsg nm),
               Message.mk "assistant"
                 (get_ollama_response net FILE_ANALYSIS_TRIGGER_PROMPT []
                   DEFAULT_SYSTEM_PROMPT (some content) (some nm))],
            uploaded_file_name := some nm,
            uploaded_file_content := some content,
            file_analysis_triggered := true,
            current_flow := FLOW_FREE_TEXT }, some (nm, content)⟩,
       [⟨FILE_ANALYSIS_TRIGGER_PROMPT, [], DEFAULT_SYSTEM_PROMPT, some content,
         some nm⟩]) := by
  obtain ⟨⟨msgs, ufc, ufn, fat, cf, lbc⟩, w⟩ := a
  obtain ⟨h1, h2, h3, h4, h5⟩ := h
  simp only at h1 h2 h3 h4 hnew
  subst h1
  have he : runEntry (SessionState.mk msgs ufc ufn fat cf none) =
      SessionState.mk msgs ufc ufn fat cf none := runEntry_noop _ rfl h2
  have e1 : uploadStage (SessionState.mk msgs ufc ufn fat cf none)
      (some (nm, content)) net =
      (SessionState.mk (msgs ++ [Message.mk "assistant" (uploadConfirmMsg nm)])
        (some content) (some nm) false FLOW_FILE_ANALYSIS none, [], true) := by
    simp [uploadStage, hnew]
  have he1 : runEntry (SessionState.mk
      (msgs ++ [Message.mk "assistant" (uploadConfirmMsg nm)])
      (some content) (some nm) false FLOW_FILE_ANALYSIS none) =
      SessionState.mk (msgs ++ [Message.mk "assistant" (uploadConfirmMsg nm)])
        (some content) (some nm) false FLOW_FILE_ANALYSIS none :=
    runEntry_noop _ rfl
      (fun hcontr => absurd hcontr (show FLOW_FILE_ANALYSIS ≠ FLOW_WELCOME by decide))
  have e2 : uploadStage (SessionState.mk
      (msgs ++ [Message.mk "assistant" (uploadConfirmMsg nm)])
      (some content) (some nm) false FLOW_FILE_ANALYSIS none)
      (some (nm, content)) net =
      (SessionState.mk
        (msgs ++ [Message.mk "assistant" (uploadConfirmMsg nm),
          Message.mk "assistant"
            (get_ollama_response net FILE_ANALYSIS_TRIGGER_PROMPT []
              DEFAULT_SYSTEM_PROMPT (some content) (some nm))])
        (some content) (some nm) true FLOW_FREE_TEXT none,
       [⟨FILE_ANALYSIS_TRIGGER_PROMPT, [], DEFAULT_SYSTEM_PROMPT, some content,
         some nm⟩], true) := by
    simp [uploadStage, truthy, hc]
  have he2 : runEntry (SessionState.mk
      (msgs ++ [Message.mk "assistant" (uploadConfirmMsg nm),
        Message.mk "assistant"
          (get_ollama_response net FILE_ANALYSIS_TRIGGER_PROMPT []
            DEFAULT_SYSTEM_PROMPT (some content) (some nm))])
      (some content) (some nm) true FLOW_FREE_TEXT none) =
      SessionState.mk
        (msgs ++ [Message.mk "assistant" (uploadConfirmMsg nm),
          Message.mk "assistant"
            (get_ollama_response net FILE_ANALYSIS_TRIGGER_PROMPT []
              DEFAULT_SYSTEM_PROMPT (some content) (some nm))])
        (some content) (some nm) true FLOW_FREE_TEXT none :=
    runEntry_noop _ rfl
      (fun hcontr => absurd hcontr (show FLOW_FREE_TEXT ≠ FLOW_WELCOME by decide))
  have e3 : uploadStage (SessionState.mk
      (msgs ++ [Message.mk "assistant" (uploadConfirmMsg nm),
        Message.mk "assistant"
          (get_ollama_response net FILE_ANALYSIS_TRIGGER_PROMPT []
            DEFAULT_SYSTEM_PROMPT (some content) (some nm))])
      (some content) (some nm) true FLOW_FREE_TEXT none)
      (some (nm, content)) net =
      (SessionState.mk
        (msgs ++ [Message.mk "assistant" (uploadConfirmMsg nm),
          Message.mk "assistant"
            (get_ollama_response net FILE_ANALYSIS_TRIGGER_PROMPT []
              DEFAULT_SYSTEM_PROMPT (some content) (some nm))])
        (some content) (some nm) true FLOW_FREE_TEXT none, [], false) := by
    simp [uploadStage]
  simp [stepUpload, plainCycle, plainRunOnce, he, e1, he1, e2, he2, e3,
    List.append_assoc]

theorem stepUpload_new_empty (a : AppState) (nm : String) (net : NetworkOutcome)
    (h : SessionInv a) (hnew : a.sess.uploaded_file_name ≠ some nm) :
    stepUpload a nm "" net =
      (⟨{ a.sess with
            messages := a.sess.messages ++
              [Message.mk "assistant" (uploadConfirmMsg nm)],
            uploaded_file_name := some nm,
            uploaded_file_content := some "",
            file_analysis_triggered := false,
            current_flow := FLOW_FILE_ANALYSIS }, some (nm, "")⟩, []) := by
  obtain ⟨⟨msgs, ufc, ufn, fat, cf, lbc⟩, w⟩ := a
  obtain ⟨h1, h2, h3, h4, h5⟩ := h
  simp only at h1 h2 h3 h4 hnew
  subst h1
  have he : runEntry (SessionState.mk msgs ufc ufn fat cf none) =
      SessionState.mk msgs ufc ufn fat cf none := runEntry_noop _ rfl h2
  have e1 : uploadStage (SessionState.mk msgs ufc ufn fat cf none)
      (some (nm, "")) net =
      (SessionState.mk (msgs ++ [Message.mk "assistant" (uploadConfirmMsg nm)])
        (some "") (some nm) false FLOW_FILE_ANALYSIS none, [], true) := by
    simp [uploadStage, hnew]
  have he1 : runEntry (SessionState.mk
      (msgs ++ [Message.mk "assistant" (uploadConfirmMsg nm)])
      (some "") (some nm) false FLOW_FILE_ANALYSIS none) =
      SessionState.mk (msgs ++ [Message.mk "assistant" (uploadConfirmMsg nm)])
        (some "") (some nm) false FLOW_FILE_ANALYSIS none :=
    runEntry_noop _ rfl
      (fun hcontr => absurd hcontr (show FLOW_FILE_ANALYSIS ≠ FLOW_WELCOME by decide))
  have e2 : uploadStage (SessionState.mk
      (msgs ++ [Message.mk "assistant" (uploadConfirmMsg nm)])
      (some "") (some nm) false FLOW_FILE_ANALYSIS none)
      (some (nm, "")) net =
      (SessionState.mk (msgs ++ [Message.mk "assistant" (uploadConfirmMsg nm)])
        (some "") (some nm) false FLOW_FILE_ANALYSIS none, [], false) := by
    simp [uploadStage, truthy]
  simp [stepUpload, plainCycle, plainRunOnce, he, e1, he1, e2]

theorem stepHuman_spec (a : AppState) (net : NetworkOutcome) (h : SessionInv a) :
    stepHuman a net =
      (if a.sess.current_flow = FLOW_HUMAN_SUPPORT then
        (⟨{ a.sess with
              messages := a.sess.messages ++ [Message.mk "assistant" MSG_EXPERT],
              current_flow := FLOW_FREE_TEXT }, a.widget⟩, [])
      else (a, [])) := by
  obtain ⟨h1, h2, h3, h4, h5⟩ := h
  have he : runEntry a.sess = a.sess := runEntry_noop _ h1 h2
  have hu : uploadStage a.sess a.widget net = (a.sess, [], false) :=
    uploadStage_noop _ _ _ h5 h4
  by_cases hf : a.sess.current_flow = FLOW_HUMAN_SUPPORT
  · simp [stepHuman, he, hu, humanStage, hf]
  · simp [stepHuman, he, hu, humanStage, hf]

theorem stepBack_inv (a : AppState) (net : NetworkOutcome) (h : SessionInv a) :
    SessionInv (stepBack a net).1 := by
  by_cases hf : a.sess.current_flow = FLOW_NEW_BUSINESS_IDEA ∨
      a.sess.current_flow = FLOW_NEW_BUSINESS_NO_IDEA ∨
      a.sess.current_flow = FLOW_FREE_TEXT ∨
      a.sess.current_flow = FLOW_FILE_ANALYSIS
  · obtain ⟨⟨msgs, ufc, ufn, fat, cf, lbc⟩, w⟩ := a
    obtain ⟨h1, h2, h3, h4, h5⟩ := h
    simp only at h1 h2 h3 h4 hf
    subst h1
    have he : runEntry (SessionState.mk msgs ufc ufn fat cf none) =
        SessionState.mk msgs ufc ufn fat cf none := runEntry_noop _ rfl h2
    by_cases hg : msgs = [] ∨ lastContent msgs ≠ some MSG_WELCOME
    · have e1 : runEntry (SessionState.mk msgs ufc ufn fat FLOW_WELCOME none) =
          SessionState.mk (msgs ++ [Message.mk "assistant" MSG_WELCOME])
            ufc ufn fat FLOW_WELCOME none := by
        simp [runEntry, hg]
      have e2 : uploadStage
          (SessionState.mk (msgs ++ [Message.mk "assistant" MSG_WELCOME])
            ufc ufn fat FLOW_WELCOME none) w net =
          (SessionState.mk (msgs ++ [Message.mk "assistant" MSG_WELCOME])
            ufc ufn fat FLOW_WELCOME none, [], false) :=
        uploadStage_noop _ _ _ h5 h4
      simp [stepBack, hf, he, plainCycle, plainRunOnce, e1, e2]
      exact ⟨rfl, fun _ => by simp [lastContent_append],
        fun hc => absurd hc (show FLOW_WELCOME ≠ FLOW_NEW_BUSINESS_START by decide),
        h4, h5⟩
    · push_neg at hg
      have e1 : runEntry (SessionState.mk msgs ufc ufn fat FLOW_WELCOME none) =
          SessionState.mk msgs ufc ufn fat FLOW_WELCOME none :=
        runEntry_noop _ rfl (fun _ => hg.2)
      have e2 : uploadStage (SessionState.mk msgs ufc ufn fat FLOW_WELCOME none)
          w net =
          (SessionState.mk msgs ufc ufn fat FLOW_WELCOME none, [], false) :=
        uploadStage_noop _ _ _ h5 h4
      simp [stepBack, hf, he, plainCycle, plainRunOnce, e1, e2]
      exact ⟨rfl, fun _ => hg.2,
        fun hc => absurd hc (show FLOW_WELCOME ≠ FLOW_NEW_BUSINESS_START by decide),
        h4, h5⟩
  · simp [stepBack, hf]
    exact h

theorem stepType_inv (a : AppState) (p : String) (net : NetworkOutcome)
    (h : SessionInv a) : SessionInv (stepType a p net).1 := by
  by_cases hp : p = ""
  · subst hp
    rw [stepType_empty a net h]
    exact h
  · by_cases hlive : pyLower p = "live agent"
    · rw [stepType_live a p net h hp hlive]
      obtain ⟨h1, h2, h3, h4, h5⟩ := h
      exact ⟨h1,
        fun hc => absurd hc (show FLOW_HUMAN_SUPPORT ≠ FLOW_WELCOME by decide),
        fun hc => absurd hc (show FLOW_HUMAN_SUPPORT ≠ FLOW_NEW_BUSINESS_START by decide),
        h4, h5⟩
    · rw [stepType_model a p net h hp hlive]
      obtain ⟨h1, h2, h3, h4, h5⟩ := h
      refine ⟨h1, ?_, ?_, h4, h5⟩
      · intro hc
        simp only at hc
        by_cases hfl : a.sess.current_flow = FLOW_FREE_TEXT ∨
            a.sess.current_flow = FLOW_FILE_ANALYSIS
        · rw [if_pos hfl] at hc
          rcases hfl with hfl | hfl <;> rw [hfl] at hc <;>
            exact absurd hc (by decide)
        · rw [if_neg hfl] at hc
          exact absurd hc (show FLOW_FREE_TEXT ≠ FLOW_WELCOME by decide)
      · intro hc
        simp only at hc
        by_cases hfl : a.sess.current_flow = FLOW_FREE_TEXT ∨
            a.sess.current_flow = FLOW_FILE_ANALYSIS
        · rw [if_pos hfl] at hc
          rcases hfl with hfl | hfl <;> rw [hfl] at hc <;>
            exact absurd hc (by decide)
        · rw [if_neg hfl] at hc
          exact absurd hc (show FLOW_FREE_TEXT ≠ FLOW_NEW_BUSINESS_START by decide)

theorem stepUpload_inv (a : AppState) (nm content : String) (net : NetworkOutcome)
    (h : SessionInv a) : SessionInv (stepUpload a nm content net).1 := by
  by_cases hsame : a.sess.uploaded_file_name = some nm
  · rw [stepUpload_same a nm content net h hsame]
    obtain ⟨h1, h2, h3, h4, h5⟩ := h
    refine ⟨h1, h2, h3, h4, ?_⟩
    intro nm2 c2 hw
    simp only at hw ⊢
    cases hw
    exact hsame
  · by_cases hc : content = ""
    · subst hc
      rw [stepUpload_new_empty a nm net h hsame]
      obtain ⟨h1, h2, h3, h4, h5⟩ := h
      refine ⟨h1, ?_, ?_, ?_, ?_⟩
      · intro hcontr
        exact absurd hcontr (show FLOW_FILE_ANALYSIS ≠ FLOW_WELCOME by decide)
      · intro hcontr
        exact absurd hcontr
          (show FLOW_FILE_ANALYSIS ≠ FLOW_NEW_BUSINESS_START by decide)
      · intro hcontr
        simp [truthy] at hcontr
      · intro nm2 c2 hw
        simp only at hw ⊢
        cases hw
        rfl
    · rw [stepUpload_new_full a nm content net h hsame hc]
      obtain ⟨h1, h2, h3, h4, h5⟩ := h
      refine ⟨h1, ?_, ?_, fun _ => rfl, ?_⟩
      · intro hcontr
        exact absurd hcontr (show FLOW_FREE_TEXT ≠ FLOW_WELCOME by decide)
      · intro hcontr
        exact absurd hcontr (show FLOW_FREE_TEXT ≠ FLOW_NEW_BUSINESS_START by decide)
      · intro nm2 c2 hw
        simp only at hw ⊢
        cases hw
        rfl

theorem stepHuman_inv (a : AppState) (net : NetworkOutcome) (h : SessionInv a) :
    SessionInv (stepHuman a net).1 := by
  rw [stepHuman_spec a net h]
  by_cases hf : a.sess.current_flow = FLOW_HUMAN_SUPPORT
  · rw [if_pos hf]
    obtain ⟨h1, h2, h3, h4, h5⟩ := h
    exact ⟨h1,
      fun hc => absurd hc (show FLOW_FREE_TEXT ≠ FLOW_WELCOME by decide),
      fun hc => absurd hc (show FLOW_FREE_TEXT ≠ FLOW_NEW_BUSINESS_START by decide),
      h4, h5⟩
  · rw [if_neg hf]
    exact h

theorem stepRerun_inv (a : AppState) (net : NetworkOutcome) (h : SessionInv a) :
    SessionInv (stepRerun a net).1 := by
  rw [stepRerun, plainCycle_of_inv a net h]
  exact h

theorem stepRemove_inv (a : AppState) (net : NetworkOutcome) (h : SessionInv a) :
    SessionInv (stepRemove a net).1 := by
  obtain ⟨h1, h2, h3, h4, h5⟩ := h
  have h2 : SessionInv ⟨a.sess, none⟩ :=
    ⟨h1, h2, h3, h4, fun nm c hw => Option.noConfusion hw⟩
  rw [stepRemove, plainCycle_of_inv _ net h2]
  exact h2

theorem inv_reachable (a : AppState) (h : Reachable a) : SessionInv a := by
  induction h with
  | start => exact startState_inv
  | click net hr hmem ih =>
      obtain ⟨_, _, _, _, _, _, _, hinv⟩ := stepClick_spec _ _ _ net ih hmem
      exact hinv
  | back net hr ih => exact stepBack_inv _ net ih
  | typed p net hr ih => exact stepType_inv _ p net ih
  | upload nm content net hr ih => exact stepUpload_inv _ nm content net ih
  | removeFile net hr ih => exact stepRemove_inv _ net ih
  | human net hr ih => exact stepHuman_inv _ net ih
  | rerun net hr ih => exact stepRerun_inv _ net ih

theorem runEntry_fields (s : SessionState) :
    (runEntry s).uploaded_file_name = s.uploaded_file_name ∧
    (runEntry s).uploaded_file_content = s.uploaded_file_content ∧
    (runEntry s).file_analysis_triggered = s.file_analysis_triggered := by
  unfold runEntry
  repeat' split
  all_goals simp

theorem runEntry_idem (s : SessionState) : runEntry (runEntry s) = runEntry s := by
  obtain ⟨msgs, ufc, ufn, fat, cf, lbc⟩ := s
  by_cases h1 : cf = FLOW_WELCOME
  · subst h1
    by_cases hg : msgs = [] ∨ lastContent msgs ≠ some MSG_WELCOME
    · simp [runEntry, hg, lastContent_append]
    · simp [runEntry, hg]
  by_cases h2 : cf = FLOW_NEW_BUSINESS_START
  · subst h2
    by_cases hg : lbc = some LBL_START ∧
        (msgs = [] ∨ lastContent msgs ≠ some MSG_NBS)
    · simp [runEntry, FLOW_WELCOME, FLOW_NEW_BUSINESS_START, hg]
    · simp [runEntry, FLOW_WELCOME, FLOW_NEW_BUSINESS_START, hg]
  by_cases h3 : cf = FLOW_NEW_BUSINESS_IDEA
  · subst h3
    by_cases hg : lbc = some LBL_IDEA ∧
        (msgs = [] ∨ lastContent msgs ≠ some MSG_IDEA)
    · simp [runEntry, FLOW_WELCOME, FLOW_NEW_BUSINESS_START, FLOW_NEW_BUSINESS_IDEA,
        hg]
    · simp [runEntry, FLOW_WELCOME, FLOW_NEW_BUSINESS_START, FLOW_NEW_BUSINESS_IDEA,
        hg]
  by_cases h4 : cf = FLOW_NEW_BUSINESS_NO_IDEA
  · subst h4
    by_cases hg : lbc = some LBL_NOIDEA ∧
        (msgs = [] ∨ lastContent msgs ≠ some MSG_NOIDEA)
    · simp [runEntry, FLOW_WELCOME, FLOW_NEW_BUSINESS_START, FLOW_NEW_BUSINESS_IDEA,
        FLOW_NEW_BUSINESS_NO_IDEA, hg]
    · simp [runEntry, FLOW_WELCOME, FLOW_NEW_BUSINESS_START, FLOW_NEW_BUSINESS_IDEA,
        FLOW_NEW_BUSINESS_NO_IDEA, hg]
  by_cases h5 : cf = FLOW_EXISTING_BUSINESS_NEEDS
  · subst h5
    by_cases hg : lbc = some LBL_RUN ∧
        (msgs = [] ∨ lastContent msgs ≠ some MSG_EXISTING)
    · simp [runEntry, FLOW_WELCOME, FLOW_NEW_BUSINESS_START, FLOW_NEW_BUSINESS_IDEA,
        FLOW_NEW_BUSINESS_NO_IDEA, FLOW_EXISTING_BUSINESS_NEEDS, hg]
    · simp [runEntry, FLOW_WELCOME, FLOW_NEW_BUSINESS_START, FLOW_NEW_BUSINESS_IDEA,
        FLOW_NEW_BUSINESS_NO_IDEA, FLOW_EXISTING_BUSINESS_NEEDS, hg]
  by_cases h6 : cf = FLOW_LEARN_MORE_TOPICS
  · subst h6
    by_cases hg : lbc = some LBL_LEARN ∧
        (msgs = [] ∨ lastContent msgs ≠ some MSG_LEARN)
    · simp [runEntry, FLOW_WELCOME, FLOW_NEW_BUSINESS_START, FLOW_NEW_BUSINESS_IDEA,
        FLOW_NEW_BUSINESS_NO_IDEA, FLOW_EXISTING_BUSINESS_NEEDS,
        FLOW_LEARN_MORE_TOPICS, hg]
    · simp [runEntry, FLOW_WELCOME, FLOW_NEW_BUSINESS_START, FLOW_NEW_BUSINESS_IDEA,
        FLOW_NEW_BUSINESS_NO_IDEA, FLOW_EXISTING_BUSINESS_NEEDS,
        FLOW_LEARN_MORE_TOPICS, hg]
  by_cases h7 : cf = FLOW_FREE_TEXT ∨ cf = FLOW_FILE_ANALYSIS
  · rcases h7 with h7 | h7 <;> subst h7 <;>
      (cases lbc with
       | none =>
           simp [runEntry, FLOW_WELCOME, FLOW_NEW_BUSINESS_START,
             FLOW_NEW_BUSINESS_IDEA, FLOW_NEW_BUSINESS_NO_IDEA,
             FLOW_EXISTING_BUSINESS_NEEDS, FLOW_LEARN_MORE_TOPICS, FLOW_FREE_TEXT,
             FLOW_FILE_ANALYSIS]
       | some lbl =>
           by_cases hl : lbl = ""
           · simp [runEntry, FLOW_WELCOME, FLOW_NEW_BUSINESS_START,
               FLOW_NEW_BUSINESS_IDEA, FLOW_NEW_BUSINESS_NO_IDEA,
               FLOW_EXISTING_BUSINESS_NEEDS, FLOW_LEARN_MORE_TOPICS, FLOW_FREE_TEXT,
               FLOW_FILE_ANALYSIS, hl]
           · simp [runEntry, FLOW_WELCOME, FLOW_NEW_BUSINESS_START,
               FLOW_NEW_BUSINESS_IDEA, FLOW_NEW_BUSINESS_NO_IDEA,
               FLOW_EXISTING_BUSINESS_NEEDS, FLOW_LEARN_MORE_TOPICS, FLOW_FREE_TEXT,
               FLOW_FILE_ANALYSIS, hl])
  · simp [runEntry, h1, h2, h3, h4, h5, h6, h7]

theorem plainRunOnce_eq (x : AppState) (net : NetworkOutcome) :
    plainRunOnce x net =
      (⟨(uploadStage (runEntry x.sess) x.widget net).1, x.widget⟩,
       (uploadStage (runEntry x.sess) x.widget net).2.1,
       (uploadStage (runEntry x.sess) x.widget net).2.2) := rfl

theorem uploadStage_rr_false (s : SessionState) (w : Option (String × String))
    (net : NetworkOutcome) (h : (uploadStage s w net).2.2 = false) :
    ∀ net2, uploadStage s w net2 = (s, [], false) := by
  rcases w with _ | ⟨nm, c⟩
  · intro net2
    rfl
  · by_cases h1 : s.uploaded_file_name ≠ some nm
    · simp [uploadStage, h1] at h
    · by_cases h2 : truthy s.uploaded_file_content = true ∧
          s.file_analysis_triggered = false
      · simp [uploadStage, h1, h2] at h
      · intro net2
        simp [uploadStage, h1, h2]

theorem uploadStage_rr_true_name (s : SessionState) (w : Option (String × String))
    (net : NetworkOutcome) (h : (uploadStage s w net).2.2 = true) :
    ∃ nm c, w = some (nm, c) ∧
      (uploadStage s w net).1.uploaded_file_name = some nm := by
  rcases w with _ | ⟨nm, c⟩
  · simp [uploadStage] at h
  · refine ⟨nm, c, rfl, ?_⟩
    by_cases h1 : s.uploaded_file_name ≠ some nm
    · simp [uploadStage, h1]
    · by_cases h2 : truthy s.uploaded_file_content = true ∧
          s.file_analysis_triggered = false
      · push_neg at h1
        simp [uploadStage, h1, h2]
      · simp [uploadStage, h1, h2] at h

theorem uploadStage_rr_true_analysis (s : SessionState) (nm c : String)
    (net : NetworkOutcome) (hn : s.uploaded_file_name = some nm)
    (h : (uploadStage s (some (nm, c)) net).2.2 = true) :
    (uploadStage s (some (nm, c)) net).1.file_analysis_triggered = true ∧
    (uploadStage s (some (nm, c)) net).1.uploaded_file_name = some nm := by
  by_cases h2 : truthy s.uploaded_file_content = true ∧
      s.file_analysis_triggered = false
  · simp [uploadStage, hn, h2]
  · simp [uploadStage, hn, h2] at h

theorem uploadStage_triggered_noop (s : SessionState) (nm c : String)
    (net : NetworkOutcome) (hn : s.uploaded_file_name = some nm)
    (ht : s.file_analysis_triggered = true) :
    uploadStage s (some (nm, c)) net = (s, [], false) := by
  simp [uploadStage, hn, ht]

theorem plainRunOnce_fix (a : AppState) (net : NetworkOutcome)
    (h : (plainRunOnce a net).2.2 = false) (net2 : NetworkOutcome) :
    plainRunOnce (plainRunOnce a net).1 net2 = ((plainRunOnce a net).1, [], false) := by
  have h2 : (uploadStage (runEntry a.sess) a.widget net).2.2 = false := h
  have hall := uploadStage_rr_false _ _ _ h2
  simp [plainRunOnce_eq, hall net, runEntry_idem, hall net2]


theorem plainCycle_fix (a : AppState) (net net2 : NetworkOutcome) :
    plainRunOnce (plainCycle a net).1 net2 = ((plainCycle a net).1, [], false) := by
  obtain ⟨s, w⟩ := a
  by_cases r1 : (plainRunOnce ⟨s, w⟩ net).2.2 = true
  · by_cases r2 : (plainRunOnce (plainRunOnce ⟨s, w⟩ net).1 net).2.2 = true
    · obtain ⟨nm, c, hw, hn1⟩ := uploadStage_rr_true_name (runEntry s) w net r1
      subst hw
      have hn2 : (runEntry
          (uploadStage (runEntry s) (some (nm, c)) net).1).uploaded_file_name =
          some nm := by
        rw [(runEntry_fields _).1]
        exact hn1
      have r2a : (uploadStage
          (runEntry (uploadStage (runEntry s) (some (nm, c)) net).1)
          (some (nm, c)) net).2.2 = true := r2
      obtain ⟨ht3, hn3⟩ := uploadStage_rr_true_analysis _ nm c net hn2 r2a
      have hn4 : (runEntry (uploadStage
          (runEntry (uploadStage (runEntry s) (some (nm, c)) net).1)
          (some (nm, c)) net).1).uploaded_file_name = some nm := by
        rw [(runEntry_fields _).1]
        exact hn3
      have ht4 : (runEntry (uploadStage
          (runEntry (uploadStage (runEntry s) (some (nm, c)) net).1)
          (some (nm, c)) net).1).file_analysis_triggered = true := by
        rw [(runEntry_fields _).2.2]
        exact ht3
      have e3 := uploadStage_triggered_noop _ nm c net hn4 ht4
      have e4 := uploadStage_triggered_noop _ nm c net2 hn4 ht4
      have r1a : (uploadStage (runEntry s) (some (nm, c)) net).2.2 = true := r1
      simp [plainCycle, plainRunOnce_eq, r1a, r2a, e3, runEntry_idem, e4]
    · have hfix := plainRunOnce_fix (plainRunOnce ⟨s, w⟩ net).1 net
        (by simpa using r2) net2
      simp [plainCycle, r1, r2]
      simp [hfix]
  · have hfix := plainRunOnce_fix ⟨s, w⟩ net (by simpa using r1) net2
    simp [plainCycle, r1]
    simp [hfix]

theorem stepRerun_idem (a : AppState) (net net2 : NetworkOutcome) :
    stepRerun (stepRerun a net).1 net2 = ((stepRerun a net).1, []) := by
  have hfix := plainCycle_fix a net net2
  show plainCycle (plainCycle a net).1 net2 = ((plainCycle a net).1, [])
  set b := (plainCycle a net).1 with hb
  simp [plainCycle, hfix]

theorem map_mk_id (l : List Message) :
    l.map (fun m => Message.mk m.role m.content) = l := by
  have h0 : (fun m : Message => Message.mk m.role m.content) = id := rfl
  rw [h0, List.map_id]

/-!  Claim theorems.  -/

/-- Counterexample for claim C1 as stated: a streaming request that
succeeds but delivers no content fragments makes `get_ollama_response`
return the empty string, so the returned text is not always non-empty. -/
theorem c1_counterexample :
    get_ollama_response (NetworkOutcome.success []) "hello" []
      DEFAULT_SYSTEM_PROMPT none none = "" := rfl

/-- Claim C1 as amended: `get_ollama_response` is total over every network
outcome (no failure propagates), each of the three caught failure classes
returns its fixed non-empty apology text — in particular a connection
failure returns the fixed connection apology — and a successful stream
returns the concatenation of its fragments, which may be empty. -/
theorem c1_failure_taxonomy (user_prompt : String) (chat_history : List Message)
    (system_prompt : String) (file_content : Option String)
    (session_file_name : Option String) :
    (get_ollama_response NetworkOutcome.connectionError user_prompt chat_history
        system_prompt file_content session_file_name = APOLOGY_CONNECTION ∧
      APOLOGY_CONNECTION ≠ "") ∧
    (∀ status body,
      get_ollama_response (NetworkOutcome.httpError status body) user_prompt
          chat_history system_prompt file_content session_file_name = APOLOGY_HTTP ∧
      APOLOGY_HTTP ≠ "") ∧
    (∀ description,
      get_ollama_response (NetworkOutcome.otherError description) user_prompt
          chat_history system_prompt file_content session_file_name = APOLOGY_OTHER ∧
      APOLOGY_OTHER ≠ "") ∧
    (∀ lines,
      get_ollama_response (NetworkOutcome.success lines) user_prompt
          chat_history system_prompt file_content session_file_name =
        streamText lines) :=
  ⟨⟨rfl, by decide⟩, fun _ _ => ⟨rfl, by decide⟩, fun _ => ⟨rfl, by decide⟩,
    fun _ => rfl⟩

/-- Claim C2: the message list sent to the model is the system prompt first,
then (exactly when document content is present — an empty stored document
never reaches the client in this program) one synthetic user message
embedding the file name and the delimited content block, then the history
with every message starting with the upload-confirmation or
thinking-placeholder prefix removed (so neither prefix ever appears in the
forwarded history), then the new user prompt last. -/
theorem c2_message_order (user_prompt : String) (chat_history : List Message)
    (system_prompt : String) (file_content : Option String)
    (session_file_name : Option String) (hfc : file_content ≠ some "") :
    build_ollama_messages user_prompt chat_history system_prompt file_content
        session_file_name =
      [Message.mk "system" system_prompt] ++
        (match file_content with
         | some content =>
             [Message.mk "user" (fileWrapper session_file_name content)]
         | none => []) ++
        filtered_chat_history chat_history ++
        [Message.mk "user" user_prompt] ∧
    ∀ m ∈ filtered_chat_history chat_history,
      pyStartsWith m.content PREFIX_FILE = false ∧
      pyStartsWith m.content PREFIX_THINKING = false := by
  constructor
  · rcases file_content with _ | content
    · simp [build_ollama_messages, truthy, map_mk_id]
    · have hc : ¬ content = "" := fun h0 => hfc (by rw [h0])
      simp [build_ollama_messages, truthy, hc, map_mk_id]
  · intro m hm
    simp [filtered_chat_history, List.mem_filter] at hm
    exact hm.2

/-- Witness for C2 at a concrete input with a filtered history entry. -/
theorem c2_witness :
    ((some "Q1 revenue $5000" : Option String) ≠ some "") ∧
    (build_ollama_messages "What does this mean?"
        [Message.mk "user" "hello",
         Message.mk "assistant" (uploadConfirmMsg "notes.txt"),
         Message.mk "assistant" "Thinking about the file content..."]
        DEFAULT_SYSTEM_PROMPT (some "Q1 revenue $5000") (some "notes.txt") =
      [Message.mk "system" DEFAULT_SYSTEM_PROMPT] ++
        (match (some "Q1 revenue $5000" : Option String) with
         | some content => [Message.mk "user" (fileWrapper (some "notes.txt") content)]
         | none => []) ++
        filtered_chat_history
          [Message.mk "user" "hello",
           Message.mk "assistant" (uploadConfirmMsg "notes.txt"),
           Message.mk "assistant" "Thinking about the file content..."] ++
        [Message.mk "user" "What does this mean?"] ∧
      ∀ m ∈ filtered_chat_history
          [Message.mk "user" "hello",
           Message.mk "assistant" (uploadConfirmMsg "notes.txt"),
           Message.mk "assistant" "Thinking about the file content..."],
        pyStartsWith m.content PREFIX_FILE = false ∧
        pyStartsWith m.content PREFIX_THINKING = false) :=
  ⟨by decide,
   c2_message_order "What does this mean?"
     [Message.mk "user" "hello",
      Message.mk "assistant" (uploadConfirmMsg "notes.txt"),
      Message.mk "assistant" "Thinking about the file content..."]
     DEFAULT_SYSTEM_PROMPT (some "Q1 revenue $5000") (some "notes.txt") (by decide)⟩

/-- Claim C3: in every reachable state, selecting any option `(label, tgt)`
offered by the current stage appends exactly one user-echo message whose
content is the clicked label (everything else appended is assistant text),
sets the current flow to the target of the option, and leaves the pending
selection cleared, with no model call. -/
theorem c3_option_click (a : AppState) (label tgt : String) (net : NetworkOutcome)
    (hre : Reachable a) (hmem : (label, tgt) ∈ stageOptions a.sess.current_flow) :
    clickOutcome a label tgt net :=
  stepClick_spec a label tgt net (inv_reachable a hre) hmem

/-- Witness for C3: clicking the first welcome option from the freshly
rendered start state. -/
theorem c3_witness :
    clickOutcome startState LBL_START FLOW_NEW_BUSINESS_START
      NetworkOutcome.connectionError :=
  c3_option_click startState LBL_START FLOW_NEW_BUSINESS_START
    NetworkOutcome.connectionError Reachable.start (by decide)

/-- Claim C4: a script run with no user input is idempotent — running it a
second time from the state it produced changes nothing and in particular
appends no message (so no canned stage line is ever duplicated by
re-rendering), for every application state and every network oracle. -/
theorem c4_rerender_idempotent (a : AppState) (net net2 : NetworkOutcome) :
    (stepRerun (stepRerun a net).1 net2).1.sess.messages =
      (stepRerun a net).1.sess.messages ∧
    stepRerun (stepRerun a net).1 net2 = ((stepRerun a net).1, []) :=
  ⟨by rw [stepRerun_idem], stepRerun_idem a net net2⟩

/-- Claim C5: in every reachable state no pending selection survives the step
boundary, and the pending selection created by any rendered option click
is consumed (cleared) within that same click cycle. -/
theorem c5_pending_consumed (a : AppState) (hre : Reachable a) :
    a.sess.last_button_click = none ∧
    ∀ label tgt net, (label, tgt) ∈ stageOptions a.sess.current_flow →
      (stepClick a label tgt net).1.sess.last_button_click = none := by
  have hinv := inv_reachable a hre
  refine ⟨hinv.1, ?_⟩
  intro label tgt net hmem
  obtain ⟨_, _, _, _, hcl, _, _, _⟩ := stepClick_spec a label tgt net hinv hmem
  exact hcl

/-- Witness for C5 at the start state with a concrete welcome option. -/
theorem c5_witness :
    startState.sess.last_button_click = none ∧
    (stepClick startState LBL_RUN FLOW_EXISTING_BUSINESS_NEEDS
      NetworkOutcome.connectionError).1.sess.last_button_click = none :=
  ⟨(c5_pending_consumed startState Reachable.start).1,
   (c5_pending_consumed startState Reachable.start).2 LBL_RUN
     FLOW_EXISTING_BUSINESS_NEEDS NetworkOutcome.connectionError (by decide)⟩

/-- Claim C6: from every reachable state, typing any input whose lower-casing is
exactly "live agent" appends the input as a user message followed by the
canned hand-off assistant message, moves the flow to human support, and
makes no model call for that turn. -/
theorem c6_live_agent (a : AppState) (p : String) (net : NetworkOutcome)
    (hre : Reachable a) (hlive : pyLower p = "live agent") :
    (stepType a p net).2 = [] ∧
    (stepType a p net).1.sess.current_flow = FLOW_HUMAN_SUPPORT ∧
    (stepType a p net).1.sess.messages =
      a.sess.messages ++
        [Message.mk "user" p, Message.mk "assistant" MSG_HANDOFF] := by
  have hp : ¬ p = "" := by
    intro h0
    rw [h0] at hlive
    exact absurd hlive (by decide)
  rw [stepType_live a p net (inv_reachable a hre) hp hlive]
  exact ⟨rfl, rfl, rfl⟩

/-- Witness for C6 with mixed-case "Live Agent" at the start state. -/
theorem c6_witness :
    pyLower "Live Agent" = "live agent" ∧
    (stepType startState "Live Agent" NetworkOutcome.connectionError).2 = [] ∧
    (stepType startState "Live Agent"
      NetworkOutcome.connectionError).1.sess.current_flow = FLOW_HUMAN_SUPPORT ∧
    (stepType startState "Live Agent"
      NetworkOutcome.connectionError).1.sess.messages =
      startState.sess.messages ++
        [Message.mk "user" "Live Agent", Message.mk "assistant" MSG_HANDOFF] :=
  ⟨by decide,
   c6_live_agent startState "Live Agent" NetworkOutcome.connectionError
     Reachable.start (by decide)⟩

/-- Counterexample for claim C7 as stated: uploading an empty file
stores the document with the analyzed flag false, yet no chat-client call
is ever made and the flow stays file analysis, because the trigger
condition requires truthy content. -/
theorem c7_counterexample :
    (stepUpload startState "empty.txt" "" NetworkOutcome.connectionError).2 = [] ∧
    (stepUpload startState "empty.txt" ""
      NetworkOutcome.connectionError).1.sess.uploaded_file_name =
      some "empty.txt" ∧
    (stepUpload startState "empty.txt" ""
      NetworkOutcome.connectionError).1.sess.uploaded_file_content = some "" ∧
    (stepUpload startState "empty.txt" ""
      NetworkOutcome.connectionError).1.sess.file_analysis_triggered = false ∧
    (stepUpload startState "empty.txt" ""
      NetworkOutcome.connectionError).1.sess.current_flow = FLOW_FILE_ANALYSIS := by
  refine ⟨?_, ?_, ?_, ?_, ?_⟩ <;> decide

/-- Claim C7 as amended: from every reachable state, uploading a document with a
new name and non-empty content makes exactly one automatic chat-client
call with the fixed analysis-trigger prompt, the document content
injected, and an empty prior history — regardless of the session log —
appends the upload confirmation and the result of the call, sets the analyzed
flag, and moves the flow to free text. -/
theorem c7_document_analysis (a : AppState) (nm content : String)
    (net : NetworkOutcome) (hre : Reachable a)
    (hnew : a.sess.uploaded_file_name ≠ some nm) (hc : ¬ content = "") :
    (stepUpload a nm content net).2 =
      [⟨FILE_ANALYSIS_TRIGGER_PROMPT, [], DEFAULT_SYSTEM_PROMPT, some content,
        some nm⟩] ∧
    (stepUpload a nm content net).1.sess.messages =
      a.sess.messages ++
        [Message.mk "assistant" (uploadConfirmMsg nm),
         Message.mk "assistant"
           (get_ollama_response net FILE_ANALYSIS_TRIGGER_PROMPT []
             DEFAULT_SYSTEM_PROMPT (some content) (some nm))] ∧
    (stepUpload a nm content net).1.sess.file_analysis_triggered = true ∧
    (stepUpload a nm content net).1.sess.current_flow = FLOW_FREE_TEXT := by
  rw [stepUpload_new_full a nm content net (inv_reachable a hre) hnew hc]
  exact ⟨rfl, rfl, rfl, rfl⟩

/-- Witness for C7 (amended): the scenario given by the spec, uploading
notes.txt containing "Q1 revenue $5000" into a fresh session. -/
theorem c7_witness :
    (startState.sess.uploaded_file_name ≠ some "notes.txt") ∧
    (¬ "Q1 revenue $5000" = "") ∧
    ((stepUpload startState "notes.txt" "Q1 revenue $5000"
        NetworkOutcome.connectionError).2 =
      [⟨FILE_ANALYSIS_TRIGGER_PROMPT, [], DEFAULT_SYSTEM_PROMPT,
        some "Q1 revenue $5000", some "notes.txt"⟩] ∧
    (stepUpload startState "notes.txt" "Q1 revenue $5000"
        NetworkOutcome.connectionError).1.sess.messages =
      startState.sess.messages ++
        [Message.mk "assistant" (uploadConfirmMsg "notes.txt"),
         Message.mk "assistant"
           (get_ollama_response NetworkOutcome.connectionError
             FILE_ANALYSIS_TRIGGER_PROMPT [] DEFAULT_SYSTEM_PROMPT
             (some "Q1 revenue $5000") (some "notes.txt"))] ∧
    (stepUpload startState "notes.txt" "Q1 revenue $5000"
        NetworkOutcome.connectionError).1.sess.file_analysis_triggered = true ∧
    (stepUpload startState "notes.txt" "Q1 revenue $5000"
        NetworkOutcome.connectionError).1.sess.current_flow = FLOW_FREE_TEXT) :=
  ⟨by decide, by decide,
   c7_document_analysis startState "notes.txt" "Q1 revenue $5000"
     NetworkOutcome.connectionError Reachable.start (by decide) (by decide)⟩

/-- Claim C8: when either required setting is falsy (absent or empty), the
application halts with the corresponding user-visible configuration error
— the base URL checked first — for every event sequence, so no session is
created and no model call is ever made in that run. -/
theorem c8_config_required (base modelId : Option String) (evs : List Event)
    (h : truthy base = false ∨ truthy modelId = false) :
    appMain base modelId evs =
      Except.error
        (if truthy base = false then CONFIG_ERR_BASE else CONFIG_ERR_MODEL) ∧
    ∀ r, appMain base modelId evs ≠ Except.ok r := by
  by_cases hb : truthy base = false
  · refine ⟨by simp [appMain, hb], ?_⟩
    intro r hcontr
    rw [appMain] at hcontr
    simp [hb] at hcontr
  · rcases h with h | h
    · exact absurd h hb
    · refine ⟨by simp [appMain, hb, h], ?_⟩
      intro r hcontr
      rw [appMain] at hcontr
      simp [hb, h] at hcontr

/-- Witness for C8: an unset base URL with a set model and a pending
typed event halts with the base-URL configuration error. -/
theorem c8_witness :
    (truthy none = false ∨ truthy (some "llama3") = false) ∧
    (appMain none (some "llama3")
        [Event.typed "hello" NetworkOutcome.connectionError] =
      Except.error
        (if truthy none = false then CONFIG_ERR_BASE else CONFIG_ERR_MODEL) ∧
    ∀ r, appMain none (some "llama3")
        [Event.typed "hello" NetworkOutcome.connectionError] ≠ Except.ok r) :=
  ⟨Or.inl (by decide),
   c8_config_required none (some "llama3")
     [Event.typed "hello" NetworkOutcome.connectionError] (Or.inl (by decide))⟩

/-- Claim C10: membership in the filtered history depends only on the message
content — a message of the original history is forwarded exactly when its
content starts with neither the upload-confirmation prefix nor the
thinking-placeholder prefix, regardless of its role or origin. -/
theorem c10_filter_content_only (chat_history : List Message) (m : Message)
    (hm : m ∈ chat_history) :
    m ∈ filtered_chat_history chat_history ↔
      (pyStartsWith m.content PREFIX_FILE = false ∧
       pyStartsWith m.content PREFIX_THINKING = false) := by
  simp [filtered_chat_history, List.mem_filter, hm]

/-- Witness for C10: a message the user themselves typed that happens to
start with the upload-confirmation prefix is excluded from the model
context. -/
theorem c10_witness :
    (Message.mk "user" "File \x27budget.txt\x27 is attached" ∈
      [Message.mk "user" "File \x27budget.txt\x27 is attached"]) ∧
    ((Message.mk "user" "File \x27budget.txt\x27 is attached" ∈
        filtered_chat_history
          [Message.mk "user" "File \x27budget.txt\x27 is attached"]) ↔
      (pyStartsWith "File \x27budget.txt\x27 is attached" PREFIX_FILE = false ∧
       pyStartsWith "File \x27budget.txt\x27 is attached" PREFIX_THINKING = false)) :=
  ⟨by decide,
   c10_filter_content_only
     [Message.mk "user" "File \x27budget.txt\x27 is attached"]
     (Message.mk "user" "File \x27budget.txt\x27 is attached") (by decide)⟩

/-- Counterexample for claim C9 as stated: typing a prompt that
itself starts with the upload-confirmation status-line start makes
a model call whose sent message list contains that prompt exactly once,
not twice — the history copy is removed by the prefix filter. -/
theorem c9_counterexample :
    ((stepType startState "File \x27x" NetworkOutcome.connectionError).2.map
      (fun call => ((sentMessages call).filter
        (fun m => m.content = "File \x27x")).length)) = [1] := by decide

/-- Claim C9 as amended: every model-invoking free-text turn appends the typed
prompt to the session log before the call and passes that log as history,
so the prompt appears at the end of the forwarded history and once more
as the final user message — except that when the prompt starts with the
upload-confirmation or thinking-placeholder prefix the history filter
removes the history copy and the prompt appears only as the final
message. -/
theorem c9_prompt_duplicated (a : AppState) (p : String) (net : NetworkOutcome)
    (hre : Reachable a) (hp : ¬ p = "") (hlive : ¬ pyLower p = "live agent") :
    (stepType a p net).2 =
      [⟨p, a.sess.messages ++ [Message.mk "user" p], DEFAULT_SYSTEM_PROMPT,
        modelFileContext a, a.sess.uploaded_file_name⟩] ∧
    sentMessages
        ⟨p, a.sess.messages ++ [Message.mk "user" p], DEFAULT_SYSTEM_PROMPT,
          modelFileContext a, a.sess.uploaded_file_name⟩ =
      [Message.mk "system" DEFAULT_SYSTEM_PROMPT] ++
        (if truthy (modelFileContext a) = true then
          [Message.mk "user"
            (fileWrapper a.sess.uploaded_file_name ((modelFileContext a).getD ""))]
        else []) ++
        filtered_chat_history a.sess.messages ++
        (if pyStartsWith p PREFIX_FILE = false ∧
            pyStartsWith p PREFIX_THINKING = false
         then [Message.mk "user" p] else []) ++
        [Message.mk "user" p] := by
  constructor
  · rw [stepType_model a p net (inv_reachable a hre) hp hlive]
    rfl
  · unfold sentMessages build_ollama_messages
    by_cases hctx : truthy (modelFileContext a) = true <;>
      by_cases h1 : pyStartsWith p PREFIX_FILE = false <;>
        by_cases h2 : pyStartsWith p PREFIX_THINKING = false <;>
          simp [filtered_chat_history, map_mk_id, List.append_assoc, hctx, h1, h2]

/-- Witness for C9 (amended) at the start state with the prompt "hello":
the prompt appears at the end of the forwarded history and as the final
message. -/
theorem c9_witness :
    (¬ "hello" = "") ∧ (¬ pyLower "hello" = "live agent") ∧
    ((stepType startState "hello" NetworkOutcome.connectionError).2 =
      [⟨"hello", startState.sess.messages ++ [Message.mk "user" "hello"],
        DEFAULT_SYSTEM_PROMPT, modelFileContext startState,
        startState.sess.uploaded_file_name⟩] ∧
    sentMessages
        ⟨"hello", startState.sess.messages ++ [Message.mk "user" "hello"],
          DEFAULT_SYSTEM_PROMPT, modelFileContext startState,
          startState.sess.uploaded_file_name⟩ =
      [Message.mk "system" DEFAULT_SYSTEM_PROMPT] ++
        (if truthy (modelFileContext startState) = true then
          [Message.mk "user"
            (fileWrapper startState.sess.uploaded_file_name
              ((modelFileContext startState).getD ""))]
        else []) ++
        filtered_chat_history startState.sess.messages ++
        (if pyStartsWith "hello" PREFIX_FILE = false ∧
            pyStartsWith "hello" PREFIX_THINKING = false
         then [Message.mk "user" "hello"] else []) ++
        [Message.mk "user" "hello"]) :=
  ⟨by decide, by decide,
   c9_prompt_duplicated startState "hello" NetworkOutcome.connectionError
     Reachable.start (by decide) (by decide)⟩

/-- Faithfulness of the chosen start state: the first script run of a
fresh session (empty log, welcome flow, no widget file) appends the
welcome greeting and makes no call, yielding exactly `startState`. -/
theorem startState_first_render (net : NetworkOutcome) :
    plainCycle ⟨init_session, none⟩ net = (startState, []) := by
  simp [plainCycle, plainRunOnce, runEntry, init_session, startState, uploadStage]
